import Mathlib

/-!
Shallow embedding of the Email_Assistant summarization-caching and
idempotent-sync core, translated from the repository sources:

* `src/classifier/email_classifier.py` — rule-based role/importance classifier
* `src/Summarizer/groq_summarizer.py` — TTL-bounded summary cache and LLM summarizer
* `src/providers/mcp_summaries_provider.py` — contact aggregation and reply drafts
* `src/integrations/google_sheets.py` — idempotent upsert into the sheet store
* `src/auto_summarizer_loop.py` — retry wrapper with exponential backoff

Python strings are Lean `String`s, dicts are association lists, machine
time (`time.time()`, seconds) is `ℚ`, and the external completion model is
an oracle parameter `g : String → String`.  Python exceptions that the code
can actually raise on the modelled paths are an explicit `PyExn`.
-/

namespace EmailAssistant

/-! ## String helpers (Python `in`, `str.lower`, `re` word-boundary search) -/

/-- Characters counted as word characters by Python's `re` `\b` for the ASCII
texts this classifier sees (`[a-zA-Z0-9_]`). -/
def isWordChar (c : Char) : Bool :=
  c.isAlphanum || c == '_'

/-- ASCII lowercasing, Python `str.lower()` on the texts in scope. -/
def lowerStr (s : String) : String :=
  ⟨s.data.map Char.toLower⟩

/-- Does `pat` occur in `text` starting at index `i`? -/
def sublistAt (text pat : List Char) (i : Nat) : Bool :=
  (text.drop i).take pat.length == pat

/-- Python `pat in text` (plain substring containment). -/
def strIn (pat text : String) : Bool :=
  let t := text.data
  (List.range (t.length + 1)).any (fun i => sublistAt t pat.data i)

/-- Is the (optional) character a word character (`none` = outside the text)? -/
def wOpt (o : Option Char) : Bool :=
  (o.map isWordChar).getD false

/-- Match of the regex `\bK\b` (K a nonempty escaped literal) at index `i`:
the literal occurs there and both ends sit on a word/non-word boundary. -/
def wbMatchAt (t k : List Char) (i : Nat) : Bool :=
  sublistAt t k i &&
  ((if i = 0 then false else wOpt t[i-1]?) != wOpt t[i]?) &&
  (wOpt t[i + k.length - 1]? != wOpt t[i + k.length]?)

/-- Python `re.search(rf"\b{re.escape(kw)}\b", text)` for a nonempty keyword. -/
def wbSearch (text kw : String) : Bool :=
  let t := text.data
  (List.range (t.length + 1)).any (fun i => wbMatchAt t kw.data i)

/-- `_count_keywords` from `src/classifier/email_classifier.py`: how many of
the keywords occur (word-bounded) in the text. -/
def count_keywords (text : String) (keywords : List String) : Nat :=
  (keywords.filter (fun kw => wbSearch text kw)).length

/-- Python `round(x, 3)` on the exact rational values produced here (none of
which sit on a rounding tie). -/
def round3 (q : ℚ) : ℚ :=
  ((round (q * 1000) : ℤ) : ℚ) / 1000

/-! ## Classifier keyword data (`src/classifier/email_classifier.py`) -/

def ROLE_KEYWORDS : List (String × List String) := [
  ("Student", [
    "student", "undergraduate", "undergrad", "grad", "graduate", "bachelor", "masters", "msc",
    "phd", "doctoral", "thesis", "dissertation", "coursework", "class assignment", "homework",
    "project submission", "semester", "enrolled", "transcript", "exam", "midterm", "final exam",
    "lecture note", "canvas", "moodle", "blackboard", "gpa", "credit hours", "enroll", "advisor",
    "supervisor", "professor", "teacher", "study", "group study", "academic advisor", "student id",
    "attendance", "plagiarism", "assignment due", "extension request", "course registration",
    "lab report", "capstone", "project milestone", "internship report", "research proposal", "thesis defense",
    "academic program", "semester plan", "study schedule", "student council", "student union",
    "exam schedule", "course syllabus", "practicum", "peer review assignment", "quiz", "online class",
    "virtual lab", "grading feedback", "student project", "faculty recommendation"]),
  ("Faculty", [
    "professor", "lecturer", "faculty", "instructor", "supervisor", "advisor", "department chair",
    "dean", "academic staff", "postdoc", "research fellow", "publication", "conference paper",
    "research grant", "peer review", "call for papers", "academic journal", "editor", "faculty meeting",
    "reviewer", "university", "lab", "department", "academic conference", "presentation", "syllabus",
    "mentorship", "exam committee", "grading", "evaluation", "tenure", "faculty development",
    "curriculum design", "teaching assistant", "course coordination", "lecture schedule",
    "research supervision", "academic project", "student evaluation", "seminar organization",
    "committee member", "journal submission", "peer evaluation", "faculty workshop", "academic advisor"]),
  ("Admin", [
    "admin", "administration", "registrar", "record office", "billing", "tuition", "enrollment",
    "admission", "finance", "accounting", "human resources", "hr", "office", "clearance", "fee",
    "department of finance", "office of registrar", "scholarship", "support office", "it support",
    "policy", "deadline", "payroll", "official notice", "document verification", "university office",
    "forms", "certificates", "official transcript", "student record", "financial aid", "admission form",
    "fee invoice", "clearance certificate", "office memo", "office announcement", "admin request",
    "staff meeting", "enrollment form", "document processing", "course registration form", "university notification"]),
  ("Industry", [
    "company", "corporate", "recruiter", "recruitment", "hiring", "headhunter", "career",
    "internship", "job", "vacancy", "opening", "business", "partner", "collaboration",
    "industry", "enterprise", "sponsor", "startup", "ceo", "cto", "hr manager", "engineering team",
    "offer letter", "job description", "role requirement", "portfolio", "application process",
    "meeting request", "networking", "linkedin", "job application", "employment contract",
    "project proposal", "client meeting", "business development", "partnership request", "corporate training",
    "recruitment drive", "talent acquisition", "career fair", "internship offer", "job interview"]),
  ("External Academic", [
    "research collaboration", "university", "college", "institute", "external examiner",
    "academic partner", "joint research", "visiting scholar", "academic conference",
    "research paper", "workshop", "seminar", "symposium", "faculty exchange", "guest lecture",
    "academic invitation", "collaborative research", "journal editor", "scientific committee",
    "call for participation", "research grant", "academic publication", "conference invitation",
    "research seminar", "publication submission", "external reviewer", "academic workshop"]),
  ("Government / Organization", [
    "government", "ministry", "department", "ngo", "non-profit", "foundation", "agency", "council",
    "authority", "public sector", "federal", "provincial", "municipal", "secretariat", "official",
    "policy", "program", "initiative", "grant", "funding", "tender", "procurement", "compliance",
    "legal", "report", "regulation", "gov.pk", "gov.in", "gov.uk", "gov.us", "gov",
    "public notice", "government office", "official communication", "administrative order",
    "policy update", "legal notice", "project proposal", "committee", "government initiative",
    "funding request"]),
  ("General External", [
    "dear sir", "dear madam", "to whom it may concern", "greetings", "hello", "hi", "thank you",
    "regards", "appreciate", "best wishes", "inquiry", "feedback", "suggestion", "information request",
    "website", "newsletter", "general", "customer support", "info@", "contact@", "help@", "support@",
    "service request", "general inquiry", "external communication", "client email", "partner email",
    "user feedback", "external notice"])]

def IMPORTANCE_KEYWORDS : List (String × List String) := [
  ("High", [
    "urgent", "asap", "immediate", "important", "critical", "emergency", "deadline",
    "time sensitive", "respond soon", "action required", "response needed", "final reminder",
    "today", "within 24 hours", "by end of day", "meeting request", "schedule confirmation",
    "project update", "interview", "offer", "contract", "payment due", "approval needed",
    "review required", "final notice", "requires your attention", "submission deadline",
    "priority", "important update", "mandatory", "critical task", "high priority", "urgent action"]),
  ("Medium", [
    "follow up", "reminder", "update", "notification", "information", "proposal",
    "request", "invitation", "appointment", "discussion", "reschedule", "progress report",
    "clarification", "question", "status update", "coordination", "internal communication",
    "weekly report", "monthly report", "planning", "documentation", "meeting minutes",
    "review", "feedback requested", "action suggested", "update required"]),
  ("Low", [
    "newsletter", "announcement", "promotion", "advertisement", "marketing", "survey",
    "thank you", "automated message", "no reply", "auto response", "digest", "news",
    "summary", "blog post", "weekly update", "event invite", "holiday greetings", "offer",
    "subscription", "reminder: optional", "informational", "general info", "FYI"])]

def DOMAIN_HINTS : List (String × List String) := [
  ("Student", ["@student.", ".edu", ".edu.pk", ".uni", ".campus"]),
  ("Faculty", ["@faculty.", "@university.", ".edu", ".ac."]),
  ("Admin", ["@admin.", "@registrar.", "@office.", "@hr.", "@finance.", "@admissions."]),
  ("Industry", [".com", "@company.", "@recruit", "@business.", "@enterprise.", "@startup."]),
  ("External Academic", [".edu", ".ac.", ".research", "@journal."]),
  ("Government / Organization", [".gov", ".org", ".ngo", ".foundation"]),
  ("General External", ["@gmail.", "@yahoo.", "@outlook.", "@hotmail."])]

/-- `sender_overrides` local table of `classify_role`. -/
def SENDER_OVERRIDES : List (String × List String) := [
  ("Admin", ["office", "registrar", "admissions", "admin", "hr", "finance"]),
  ("Faculty", ["prof", "dr.", "lecturer", "faculty"]),
  ("Student", ["student", "roll", "reg no"]),
  ("Industry", ["hr", "recruit", "talent", "company"]),
  ("Government / Organization", ["ministry", "department", "authority"])]

/-- `priority` tie-break list of `classify_role`. -/
def ROLE_PRIORITY : List String := [
  "Admin", "Faculty", "Student", "Industry", "External Academic",
  "Government / Organization", "General External"]

/-- Keywords (or override signals / domain hints) registered for a role. -/
def lookupKws (table : List (String × List String)) (role : String) : List String :=
  ((table.find? (fun p => p.1 == role)).map (fun p => p.2)).getD []

/-- The score `classify_role` accumulates for one role: keyword hits ×2,
sender-substring override hits ×6, sender-domain hints ×1. -/
def roleScore (text sender : String) (role : String) : Nat :=
  2 * count_keywords text (lookupKws ROLE_KEYWORDS role)
  + 6 * ((lookupKws SENDER_OVERRIDES role).filter (fun s => strIn s sender)).length
  + ((lookupKws DOMAIN_HINTS role).filter (fun d => strIn d sender)).length

/-- `classify_role(email_text, sender_email)`: best-scoring role with the
fixed priority tie-break, returning `("General External", 0.4)` when every
role scores zero, else confidence `min(best/8, 0.95)` rounded to 3 decimals. -/
def classify_role (email_text sender_email : String) : String × ℚ :=
  let text := lowerStr email_text
  let sender := lowerStr sender_email
  let scores := ROLE_KEYWORDS.map (fun p => (p.1, roleScore text sender p.1))
  let best_score := (scores.map (fun p => p.2)).foldl max 0
  if best_score = 0 then ("General External", 0.4)
  else
    let candidates := (scores.filter (fun p => p.2 == best_score)).map (fun p => p.1)
    let best_role := (ROLE_PRIORITY.find? (fun p => candidates.contains p)).getD "General External"
    (best_role, round3 (min ((best_score : ℚ) / 8) 0.95))

/-- The explicit-urgency alternation `\b(asap|urgent|deadline|today|immediately|within 24 hours)\b`. -/
def URGENCY_WORDS : List String :=
  ["asap", "urgent", "deadline", "today", "immediately", "within 24 hours"]

/-- `classify_importance(email_text)`: keyword-weighted scores over
High/Medium/Low plus a +4 urgency boost for High; `("Medium", 0.4)` when all
zero, else the first level attaining the best score (dict order), confidence
`min(best/6, 0.95)` rounded to 3 decimals. -/
def classify_importance (email_text : String) : String × ℚ :=
  let text := lowerStr email_text
  let base := IMPORTANCE_KEYWORDS.map
    (fun p => (p.1, 2 * count_keywords text (lookupKws IMPORTANCE_KEYWORDS p.1)))
  let scores := if URGENCY_WORDS.any (fun w => wbSearch text w) then
      base.map (fun p => if p.1 == "High" then (p.1, p.2 + 4) else p)
    else base
  let best_score := (scores.map (fun p => p.2)).foldl max 0
  if best_score = 0 then ("Medium", 0.4)
  else
    let best_level := ((scores.find? (fun p => p.2 == best_score)).map (fun p => p.1)).getD "Medium"
    (best_level, round3 (min ((best_score : ℚ) / 6) 0.95))

/-- The classifier's output record. -/
structure Classification where
  role : String
  role_confidence : ℚ
  importance : String
  importance_confidence : ℚ
deriving Repr, DecidableEq

/-- `classify_email(sender, subject, body)` on string inputs. -/
def classify_email (sender subject body : String) : Classification :=
  let email_text := "From: " ++ sender ++ "\nSubject: " ++ subject ++ "\nBody: " ++ body
  let rc := classify_role email_text sender
  let ic := classify_importance email_text
  ⟨rc.1, rc.2, ic.1, ic.2⟩

/-- Python exceptions reachable on the modelled paths. -/
inductive PyExn where
  | attributeError
  | indexError
  | keyError
  | typeError
deriving Repr, DecidableEq

/-- Python `f"{x}"` on a possibly-`None` string. -/
def pyStr (o : Option String) : String :=
  o.getD "None"

/-- `classify_email` as called from Python with possibly-`None` arguments:
`None` subject/body are merely interpolated as the text "None", but a `None`
sender reaches `sender_email.lower()` in `classify_role` and raises
`AttributeError` (there is no defaulting of absent inputs). -/
def classify_email_py (sender subject body : Option String) : Except PyExn Classification :=
  match sender with
  | none => .error .attributeError
  | some s => .ok (classify_email s (pyStr subject) (pyStr body))

/-! ## JSON-ish Python values (rows, `threads` cells) and `json.dumps`

`src/integrations/google_sheets.py` moves dict rows around whose values are
strings, numbers, lists and dicts.  `Jv` models those values; the mutual
shape keeps every recursion structural. -/

mutual
inductive Jv where
  | null
  | s (v : String)
  | num (v : ℚ)
  | arr (l : JvList)
  | obj (l : JvObj)
inductive JvList where
  | nil
  | cons (hd : Jv) (tl : JvList)
inductive JvObj where
  | nil
  | cons (k : String) (v : Jv) (tl : JvObj)
end

mutual
/-- Python `==` on the modelled values. -/
def jvEq : Jv → Jv → Bool
  | .null, .null => true
  | .s a, .s b => a == b
  | .num a, .num b => a == b
  | .arr a, .arr b => jvListEq a b
  | .obj a, .obj b => jvObjEq a b
  | _, _ => false
def jvListEq : JvList → JvList → Bool
  | .nil, .nil => true
  | .cons a as, .cons b bs => jvEq a b && jvListEq as bs
  | _, _ => false
def jvObjEq : JvObj → JvObj → Bool
  | .nil, .nil => true
  | .cons ka va as, .cons kb vb bs => ka == kb && jvEq va vb && jvObjEq as bs
  | _, _ => false
end

/-- Python truthiness of a value (`""`, `0`, `[]`, `{}`, `None` are falsy). -/
def jvTruthy : Jv → Bool
  | .null => false
  | .s v => v ≠ ""
  | .num q => q ≠ 0
  | .arr .nil => false
  | .arr _ => true
  | .obj .nil => false
  | .obj _ => true

/-- `dict.get`: first binding of the key, if any. -/
def objGet : JvObj → String → Option Jv
  | .nil, _ => none
  | .cons k v tl, key => if k == key then some v else objGet tl key

/-- Hex digit for `\uXXXX` escapes. -/
def hexDigit (n : Nat) : Char :=
  if n < 10 then Char.ofNat (48 + n) else Char.ofNat (87 + n)

/-- JSON string escaping as `json.dumps` performs it with `ensure_ascii=False`
(backslash, quote, and control characters; other characters pass through). -/
def jsonEscapeChar (c : Char) : List Char :=
  if c == '"' then ['\\', '"']
  else if c == '\\' then ['\\', '\\']
  else if c == '\n' then ['\\', 'n']
  else if c == '\t' then ['\\', 't']
  else if c == '\r' then ['\\', 'r']
  else if c.toNat < 32 then
    ['\\', 'u', '0', '0', hexDigit (c.toNat / 16), hexDigit (c.toNat % 16)]
  else [c]

def jsonDumpString (v : String) : String :=
  ⟨'"' :: (v.data.flatMap jsonEscapeChar) ++ ['"']⟩

/-- Smallest `k ≤ fuel` with `den ∣ 10^k`, if any. -/
def decExponent (den : Nat) : Nat → Option Nat
  | 0 => if den = 1 then some 0 else none
  | fuel + 1 =>
    match decExponent den fuel with
    | some k => some k
    | none => if (10 ^ (fuel + 1)) % den = 0 then some (fuel + 1) else none

/-- Python's textual form of the numbers appearing here: integers print as
`str(int)`; decimally-representable rationals print with their (exact) decimal
expansion, as `repr(float)` does for the short decimal values this code
produces.  Rationals with no finite decimal expansion do not arise from
Python floats; they fall back to a fraction spelling. -/
def numRepr (q : ℚ) : String :=
  let sign := if q < 0 then "-" else ""
  let n := q.num.natAbs
  let d := q.den
  if d = 1 then sign ++ toString n
  else
    match decExponent d 18 with
    | some k =>
      let scaled := n * (10 ^ k) / d
      let ip := scaled / 10 ^ k
      let fr := scaled % 10 ^ k
      let frStr := toString fr
      let pad := String.mk (List.replicate (k - frStr.length) '0')
      sign ++ toString ip ++ "." ++ pad ++ frStr
    | none => sign ++ toString n ++ "/" ++ toString d

/-- Python `str <` on the (ASCII) keys sorted by `sort_keys=True`. -/
def charListLt : List Char → List Char → Bool
  | [], [] => false
  | [], _ :: _ => true
  | _ :: _, [] => false
  | a :: as, b :: bs => a.toNat < b.toNat || (a == b && charListLt as bs)

def strLtB (a b : String) : Bool :=
  charListLt a.data b.data

/-- Stable insertion of an object entry in key order. -/
def sortInsert (k : String) (v : Jv) : JvObj → JvObj
  | .nil => .cons k v .nil
  | .cons k2 v2 tl => if strLtB k k2 then .cons k v (.cons k2 v2 tl) else .cons k2 v2 (sortInsert k v tl)

mutual
/-- Recursively sort every object's keys, the effect of `sort_keys=True`. -/
def sortJv : Jv → Jv
  | .null => .null
  | .s v => .s v
  | .num q => .num q
  | .arr l => .arr (sortJvList l)
  | .obj o => .obj (sortJvObj o)
def sortJvList : JvList → JvList
  | .nil => .nil
  | .cons x tl => .cons (sortJv x) (sortJvList tl)
def sortJvObj : JvObj → JvObj
  | .nil => .nil
  | .cons k v tl => sortInsert k (sortJv v) (sortJvObj tl)
end

mutual
/-- `json.dumps(value, ensure_ascii=False)` with the default separators and
the keys in the order they carry (pre-sort with `sortJv` for `sort_keys`). -/
def jsonDumps : Jv → String
  | .null => "null"
  | .s v => jsonDumpString v
  | .num q => numRepr q
  | .arr l => "[" ++ jsonDumpsList l ++ "]"
  | .obj o => "\x7b" ++ jsonDumpsObj o ++ "\x7d"
def jsonDumpsList : JvList → String
  | .nil => ""
  | .cons x .nil => jsonDumps x
  | .cons x tl => jsonDumps x ++ ", " ++ jsonDumpsList tl
def jsonDumpsObj : JvObj → String
  | .nil => ""
  | .cons k v .nil => jsonDumpString k ++ ": " ++ jsonDumps v
  | .cons k v tl => jsonDumpString k ++ ": " ++ jsonDumps v ++ ", " ++ jsonDumpsObj tl
end

/-- Python `str(value)` for the values reaching `str()` in this module.
(`str` of a list/dict differs from `json.dumps` in quoting; no row in scope
carries a container in a `str()`-compared column, so the JSON form stands in.) -/
def pyStrOf : Jv → String
  | .null => "None"
  | .s v => v
  | .num q => numRepr q
  | .arr l => jsonDumps (.arr l)
  | .obj o => jsonDumps (.obj o)

/-! ## Sheet sync engine (`src/integrations/google_sheets.py`) -/

def HEADER : List String :=
  ["id", "email", "source", "role", "role_confidence", "contact_summary", "threads", "last_summary"]

/-- The normalized row built by `_normalize_row_payload`: columns always
present, id defaulted from `source:email`. -/
structure NRow where
  id : String
  email : String
  source : String
  role : Jv
  role_confidence : Jv
  contact_summary : Jv
  threads : Jv
  last_summary : Jv

/-- Python whitespace for `str.strip()`. -/
def isPySpace (c : Char) : Bool :=
  c == ' ' || c == '\t' || c == '\n' || c == '\r' || c == Char.ofNat 11 || c == Char.ofNat 12

/-- Python `str.strip()`. -/
def pyStrip (s : String) : String :=
  ⟨((s.data.dropWhile isPySpace).reverse.dropWhile isPySpace).reverse⟩

/-- `_pick(*keys, default)`: first key whose value is neither `None` nor `""`. -/
def pick (row : JvObj) (keys : List String) (dflt : Jv) : Jv :=
  match keys with
  | [] => dflt
  | k :: ks =>
    match objGet row k with
    | some v => if !(jvEq v .null) && !(jvEq v (.s "")) then v else pick row ks dflt
    | none => pick row ks dflt

/-- `_normalize_row_payload(row)` on a dict row; `now_iso` stands for
`datetime.now(timezone.utc).isoformat()`. -/
def normalize_row_payload (row : JvObj) (now_iso : String) : NRow :=
  let email := pyStrip (pyStrOf (pick row ["email", "Email"] (.s "")))
  let source0 := pyStrip (pyStrOf (pick row ["source", "Source"] (.s "unknown")))
  let source := if source0 = "" then "unknown" else source0
  let rid0 := pyStrip (pyStrOf (pick row ["id", "Id"] (.s "")))
  let rid := if rid0 = "" && email ≠ "" then (if source ≠ "" then source ++ ":" ++ email else email) else rid0
  let last0 := pick row ["last_summary", "lastSummary", "timestamp", "date"] (.s "")
  { id := rid
    email := email
    source := source
    role := pick row ["role", "Role"] (.s "Unknown")
    role_confidence := pick row ["role_confidence", "Role_confidence", "roleConfidence"] (.num 0)
    contact_summary := pick row ["contact_summary", "summary", "contactSummary"] (.s "")
    threads := (objGet row "threads").getD (.arr .nil)
    last_summary := if jvTruthy last0 then last0 else .s now_iso }

/-- `_build_unique_key(row_id, email, source)`. -/
def build_unique_key (row_id email source : String) : String :=
  let ri := lowerStr (pyStrip row_id)
  let em := lowerStr (pyStrip email)
  let so := lowerStr (pyStrip source)
  if ri ≠ "" then ri
  else if so ≠ "" && em ≠ "" then so ++ ":" ++ em
  else em

/-- `_stable_json(value)`: canonical (sorted-keys) JSON encoding of lists and
dicts; all other values pass through. -/
def stable_json : Jv → Jv
  | .arr l => .s (jsonDumps (sortJv (.arr l)))
  | .obj o => .s (jsonDumps (sortJv (.obj o)))
  | v => v

/-- `_should_update(existing, incoming)`: stage an update as soon as one of
`contact_summary`, `role` (via `str`), `role_confidence` (via `str`), or the
stable-JSON `threads` encoding differs. -/
def should_update (existing incoming : NRow) : Bool :=
  !(jvEq existing.contact_summary incoming.contact_summary)
  || pyStrOf existing.role ≠ pyStrOf incoming.role
  || pyStrOf existing.role_confidence ≠ pyStrOf incoming.role_confidence
  || !(jvEq (stable_json existing.threads) (stable_json incoming.threads))

/-- `_serialize_value`: lists/dicts become (plain) JSON, `None` becomes `""`,
everything else `str(value)`. -/
def serialize_value : Jv → String
  | .arr l => jsonDumps (.arr l)
  | .obj o => jsonDumps (.obj o)
  | .null => ""
  | v => pyStrOf v

/-- Column projection of a normalized row (its dict has exactly `HEADER`). -/
def rowCell (n : NRow) (col : String) : Jv :=
  if col == "id" then .s n.id
  else if col == "email" then .s n.email
  else if col == "source" then .s n.source
  else if col == "role" then n.role
  else if col == "role_confidence" then n.role_confidence
  else if col == "contact_summary" then n.contact_summary
  else if col == "threads" then n.threads
  else if col == "last_summary" then n.last_summary
  else .s ""

/-- Insertion-ordered dict from keys to normalized rows (`existing_lookup`). -/
abbrev Lookup := List (String × NRow)

def dictGet (d : Lookup) (k : String) : Option NRow :=
  (d.find? (fun p => p.1 == k)).map (fun p => p.2)

/-- Python dict assignment: replace in place, else append. -/
def dictInsert (d : Lookup) (k : String) (v : NRow) : Lookup :=
  match d with
  | [] => [(k, v)]
  | p :: tl => if p.1 == k then (k, v) :: tl else p :: dictInsert tl k v

/-- `existing_lookup` built from the records `ws.get_all_records()` returned. -/
def build_existing_lookup (records : List JvObj) (now_iso : String) : Lookup :=
  records.foldl
    (fun lk rec =>
      let n := normalize_row_payload rec now_iso
      let key := build_unique_key n.id n.email n.source
      if key ≠ "" then dictInsert lk key n else lk)
    []

/-- Staged counters and lookup while merging incoming rows. -/
structure Staging where
  inserts : Nat
  updates : Nat
  lookup : Lookup

/-- The dedup key of an incoming row after normalization. -/
def rowKey (o : JvObj) (now_iso : String) : String :=
  let n := normalize_row_payload o now_iso
  build_unique_key n.id n.email n.source

/-- One iteration of the incoming-row loop of `upsert_summaries`: skip
non-dicts and keyless rows, stage an insert for a new key, and for an
existing key stage an update only when `_should_update` fires — bumping
`last_summary` to the current time exactly when `contact_summary` changed,
otherwise carrying the stored `last_summary` over. -/
def upsert_merge_row (now_iso : String) (st : Staging) (row : Jv) : Staging :=
  match row with
  | .obj o =>
    let n := normalize_row_payload o now_iso
    let key := rowKey o now_iso
    if key = "" then st
    else
      match dictGet st.lookup key with
      | none => { st with inserts := st.inserts + 1, lookup := dictInsert st.lookup key n }
      | some e =>
        if should_update e n then
          let staged :=
            { n with last_summary :=
                if !(jvEq e.contact_summary n.contact_summary) then .s now_iso else e.last_summary }
          { st with updates := st.updates + 1, lookup := dictInsert st.lookup key staged }
        else st
  | _ => st

/-- Stable descending insertion by `last_summary` date (`sorted(...,
reverse=True)`): `none` (unparseable) sorts last, ties keep input order. -/
def optLeQ : Option ℚ → Option ℚ → Bool
  | none, _ => true
  | some _, none => false
  | some a, some b => a ≤ b

def sortKeyOf (pdate : String → Option ℚ) (n : NRow) : Option ℚ :=
  match n.last_summary with
  | .s v => pdate v
  | _ => none

def sortedInsertDesc (pdate : String → Option ℚ) (x : NRow) : List NRow → List NRow
  | [] => [x]
  | y :: ys =>
    if !(optLeQ (sortKeyOf pdate x) (sortKeyOf pdate y)) then x :: y :: ys
    else y :: sortedInsertDesc pdate x ys

def sortRowsDesc (pdate : String → Option ℚ) (rows : List NRow) : List NRow :=
  rows.foldl (fun acc x => sortedInsertDesc pdate x acc) []


/-- Result of one `upsert_summaries` call: staged counters, the merged
lookup, and the matrix written to the sheet (`none` when the write was
skipped because nothing changed). -/
structure UpsertOutcome where
  inserts : Nat
  updates : Nat
  lookup : Lookup
  write : Option (List (List String))

/-- `upsert_summaries(new_rows)` as a pure function of the sheet's existing
records.  `pdate` abstracts `_parse_date` (only the write ordering depends on
it); `now_iso` is the cycle's `datetime.now(timezone.utc).isoformat()`. -/
def upsert_summaries (pdate : String → Option ℚ) (existing_records : List JvObj)
    (new_rows : List Jv) (now_iso : String) : UpsertOutcome :=
  let lk0 := build_existing_lookup existing_records now_iso
  let st := new_rows.foldl (upsert_merge_row now_iso) ⟨0, 0, lk0⟩
  if st.updates = 0 && st.inserts = 0 then
    ⟨st.inserts, st.updates, st.lookup, none⟩
  else
    let ordered := sortRowsDesc pdate (st.lookup.map (fun p => p.2))
    let matrix := HEADER :: ordered.map (fun n => HEADER.map (fun col => serialize_value (rowCell n col)))
    let extra := existing_records.length - ordered.length
    ⟨st.inserts, st.updates, st.lookup, some (matrix ++ List.replicate extra (List.replicate HEADER.length ""))⟩

/-! ## Summary cache and LLM summarizer (`src/Summarizer/groq_summarizer.py`)

The summarizer's mutable state is its in-memory cache (a JSON dict on disk,
saved after each mutation) plus — as instrumentation for the claims — the
number of completion-model invocations.  The completion model itself is the
oracle `g : String → String` (`_run_groq_model` returns its text, or the
fixed fallback string on an API error, which the oracle also covers). -/

/-- Python dict get over an insertion-ordered association list. -/
def pdGet {α : Type} (d : List (String × α)) (k : String) : Option α :=
  (d.find? (fun p => p.1 == k)).map (fun p => p.2)

/-- Python dict assignment: replace in place, else append. -/
def pdInsert {α : Type} : List (String × α) → String → α → List (String × α)
  | [], k, v => [(k, v)]
  | p :: tl, k, v => if p.1 == k then (k, v) :: tl else p :: pdInsert tl k v

/-- Python `dict.pop(k, None)`. -/
def pdErase {α : Type} (d : List (String × α)) (k : String) : List (String × α) :=
  d.filter (fun p => p.1 != k)

/-- Python truthiness of an optional string (`None` and `""` are falsy). -/
def truthy : Option String → Bool
  | none => false
  | some s => s ≠ ""

/-- Python `s.startswith(pat)`. -/
def leadsWith (pat s : String) : Bool :=
  s.data.take pat.data.length == pat.data

/-- Python `s[:100]`. -/
def pyTake100 (s : String) : String :=
  ⟨s.data.take 100⟩

/-- One cache entry.  A Python entry is a dict whose keys may be missing; the
defaults here are exactly the `entry.get(...)` defaults used at every read
site (`summary`/`subject`/`preview` default `""`, `role`/`importance` are
tested against falsy-or-"Unknown", confidences default `0`, `timestamp`
defaults `0`), so a field left at its default behaves like a missing key. -/
structure CacheEntry where
  summary : String := ""
  subject : String := ""
  preview : String := ""
  role : String := "Unknown"
  importance : String := "Unknown"
  role_confidence : ℚ := 0
  importance_confidence : ℚ := 0
  timestamp : ℚ := 0

/-- Summarizer state: the cache dict plus the completion-call counter. -/
structure GState where
  cache : List (String × CacheEntry) := []
  modelCalls : Nat := 0

/-- `_get_cache_key(source, contact_email, thread_id)` — an f-string, so
`None` components render as the text "None". -/
def get_cache_key (source contact_email thread_id : Option String) : String :=
  pyStr source ++ ":" ++ pyStr contact_email ++ ":" ++ pyStr thread_id

/-- `_clear_contact_cache(source, contact_email)`: drop every key equal to
`"{source}:{contact_email}"` or starting with that prefix plus `":"`. -/
def clear_contact_cache (st : GState) (source contact_email : Option String) : GState :=
  let pref := pyStr source ++ ":" ++ pyStr contact_email
  { st with cache := st.cache.filter (fun p => !(p.1 == pref || leadsWith (pref ++ ":") p.1)) }

/-- `_get_from_cache(source, contact_email, thread_id)` at clock `now` with
the instance's `ttl_seconds`: a present entry is returned unless
`now - entry.timestamp > ttl_seconds`, in which case it is popped (and the
cache persisted) and `None` is returned. -/
def get_from_cache (st : GState) (source contact_email thread_id : Option String)
    (now ttl_seconds : ℚ) : Option String × GState :=
  let key := get_cache_key source contact_email thread_id
  match pdGet st.cache key with
  | none => (none, st)
  | some entry =>
    if now - entry.timestamp > ttl_seconds then
      (none, { st with cache := pdErase st.cache key })
    else
      (some entry.summary, st)

/-- `_set_cache`: store `{"summary": ..., "timestamp": time.time()}`. -/
def set_cache (st : GState) (source contact_email thread_id : Option String)
    (summary : String) (now : ℚ) : GState :=
  let entry : CacheEntry := { summary := summary, timestamp := now }
  { st with cache := pdInsert st.cache (get_cache_key source contact_email thread_id) entry }

/-- One raw email message dict (`none` = key absent). -/
structure Msg where
  sender : Option String := none
  subject : Option String := none
  body : Option String := none
  date : Option String := none
  message_id : Option String := none

def joinSep (sep : String) : List String → String
  | [] => ""
  | [x] => x
  | x :: tl => x ++ sep ++ joinSep sep tl

/-- The combined thread text of `summarize_thread` step 2. -/
def combineThread (thread_emails : List Msg) : String :=
  joinSep "\n\n---\n\n" (thread_emails.map (fun m =>
    "From: " ++ m.sender.getD "Unknown Sender" ++ "\nSubject: " ++ m.subject.getD "No Subject"
      ++ "\n\n" ++ m.body.getD ""))

/-- The per-thread summarization prompt (f-string template around the
combined thread text). -/
def thread_prompt (combined : String) : String :=
  "\n        You are an AI email summarization assistant for a busy professional.\n\n"
  ++ "        Summarize the following thread into one natural, human-like paragraph that:\n"
  ++ "        - Captures the main topic and purpose of the conversation\n"
  ++ "        - Includes who is involved and any meeting times, decisions, or next steps\n"
  ++ "        - Keeps the tone professional but easy to read\n"
  ++ "        - Avoids unnecessary greetings, repetition, or formal sign-offs\n"
  ++ "        - Should be no longer than 5–6 lines\n\n"
  ++ "        Email Thread:\n        " ++ combined ++ "\n\n"
  ++ "        Write the summary as if you’re briefing a colleague who didn’t read the thread.\n        "

/-- The classification `summarize_thread` computes inside its `try` block:
`IndexError` (no messages) and `AttributeError` (a `None` sender reaching
`classify_role`) are caught and degrade to "Unknown"/0. -/
def threadClassification (thread_emails : List Msg) (contact_email : Option String) : Classification :=
  match thread_emails with
  | [] => ⟨"Unknown", 0, "Unknown", 0⟩
  | m0 :: _ =>
    match classify_email_py (m0.sender <|> contact_email) (some (m0.subject.getD "")) (some (m0.body.getD "")) with
    | .ok c => c
    | .error _ => ⟨"Unknown", 0, "Unknown", 0⟩

/-- `GroqSummarizer.summarize_thread(thread_emails, source, contact_email,
thread_id, force)` at clock `now`.  Mutations performed before an uncaught
exception persist, so the state is returned alongside the
possibly-exceptional result.  The cache-hit test is a plain
`self.cache.get(key)` (no TTL check on this path). -/
def summarize_thread (g : String → String) (st : GState) (thread_emails : List Msg)
    (source contact_email thread_id : Option String) (force : Bool) (now : ℚ) :
    Except PyExn String × GState :=
  let st := if force && truthy source && truthy contact_email then
      clear_contact_cache st source contact_email
    else st
  let key := get_cache_key source contact_email thread_id
  let hit : Option CacheEntry :=
    if truthy thread_id && truthy source && truthy contact_email then pdGet st.cache key else none
  match hit with
  | some cached => (.ok cached.summary, st)
  | none =>
    let summary := g (thread_prompt (combineThread thread_emails))
    let st := { st with modelCalls := st.modelCalls + 1 }
    let cls := threadClassification thread_emails contact_email
    if truthy thread_id && truthy source && truthy contact_email then
      match thread_emails with
      | [] => (.error .indexError, st)
      | m0 :: _ =>
        let entry : CacheEntry :=
          { summary := summary
            subject := m0.subject.getD ""
            preview := pyTake100 (m0.body.getD "")
            role := cls.role
            importance := cls.importance
            role_confidence := cls.role_confidence
            importance_confidence := cls.importance_confidence
            timestamp := now }
        (.ok summary, { st with cache := pdInsert st.cache key entry })
    else
      (.ok summary, st)

/-- A thread entry of the contact-level record.  `Option` fields mark dict
keys the summarizer does not write (`role_confidence`, `last_*`) until the
provider adds them, and values that may genuinely be `None`. -/
structure TMeta where
  id : Option String
  subject : String
  preview : String
  summary : String
  role : Option String
  role_confidence : Option ℚ := none
  importance : Option String
  importance_confidence : Option ℚ
  last_message_ts : Option String := none
  last_message_id : Option String := none
  last_subject : Option String := none
  last_body : Option String := none

/-- The contact-level record returned by `summarize_contact_threads`. -/
structure ContactRecord where
  id : String
  email : Option String
  source : Option String
  role : String
  role_confidence : ℚ
  threads : List TMeta
  summary : String
  timestamp : String

/-- First occurrences, in order. -/
def dedupFirst : List String → List String
  | [] => []
  | x :: tl => x :: (dedupFirst tl).filter (fun y => y ≠ x)

def countOcc (l : List String) (x : String) : Nat :=
  (l.filter (fun y => y == x)).length

/-- `Counter(roles).most_common(1)[0][0]`: the first value (in first-seen
order) attaining the maximal multiplicity (`sorted` is stable). -/
def firstMostCommon (roles : List String) : String :=
  let uniq := dedupFirst roles
  uniq.foldl (fun best r => if countOcc roles r > countOcc roles best then r else best)
    (uniq.headD "Unknown")

/-- The contact-level summarization prompt. -/
def contact_prompt (joined : String) : String :=
  "\n        You are an AI assistant that creates email briefings for a busy professional.\n\n"
  ++ "        Below are multiple email threads between contacts.\n\n"
  ++ "        Summarize them into one cohesive, human-like summary that:\n"
  ++ "        - Captures the overall context and purpose of communication\n"
  ++ "        - Mentions key decisions, updates, people, and dates\n"
  ++ "        - Includes next steps, meetings, or follow-ups if mentioned\n"
  ++ "        - Keeps it natural and conversational (avoid bullet points)\n"
  ++ "        - Is no longer than 6 lines\n"
  ++ "        - Feels like an executive recap, not a formal email\n\n"
  ++ "        Threads:\n        " ++ joined ++ "\n\n"
  ++ "        Write the summary as if you’re briefing your manager in plain English.\n        "

/-- The per-thread loop of `summarize_contact_threads`: read each thread's
cache entry (an absent key behaves as `{}`), classify importance lazily when
it is still "Unknown" (writing it back), then store the contact-level role
into the entry and emit the thread metadata dict. -/
def contactThreadLoop (source contact_email : Option String) (contact_role : String)
    (contact_role_conf : ℚ) :
    List (Option String) → List (String × CacheEntry) → List TMeta × List (String × CacheEntry)
  | [], cache => ([], cache)
  | tid :: rest, cache =>
    let key := get_cache_key source contact_email tid
    let entry := (pdGet cache key).getD {}
    let subject := entry.subject
    let preview := entry.preview
    let body := if preview ≠ "" then preview else subject
    let lazyImp :=
      if entry.importance == "Unknown" then
        let email_text := "From: " ++ pyStr contact_email ++ "\nSubject: " ++ subject ++ "\nBody: " ++ body
        let r := classify_importance email_text
        let e2 := { entry with importance := r.1, importance_confidence := r.2 }
        (r.1, r.2, e2, pdInsert cache key e2)
      else
        (entry.importance, entry.importance_confidence, entry, cache)
    match lazyImp with
    | (importance, importance_conf, e2, cache1) =>
      let e3 := { e2 with role := contact_role, role_confidence := contact_role_conf }
      let cache2 := pdInsert cache1 key e3
      let meta : TMeta :=
        { id := tid
          subject := subject
          preview := preview
          summary := e3.summary
          role := some contact_role
          importance := some importance
          importance_confidence := some (round3 importance_conf) }
      let step := contactThreadLoop source contact_email contact_role contact_role_conf rest cache2
      (meta :: step.1, step.2)

/-- `GroqSummarizer.summarize_contact_threads(all_threads, source,
contact_email, thread_ids, force)`.  The contact-level role is the majority
of the roles already cached for the given threads; when none are cached the
fallback branch calls `classify_role(email_text)` with its second argument
missing, a `TypeError` the surrounding handler catches, so that branch
always yields `("Unknown", 0)`.  `nowIso` stands for
`datetime.utcnow().isoformat() + "Z"`. -/
def summarize_contact_threads (g : String → String) (st : GState) (all_threads : List String)
    (source contact_email : Option String) (thread_ids : Option (List (Option String)))
    (force : Bool) (nowIso : String) : ContactRecord × GState :=
  let st := if force && truthy source && truthy contact_email then
      clear_contact_cache st source contact_email
    else st
  let contact_summary_text := g (contact_prompt (joinSep "\n\n---\n\n" all_threads))
  let st := { st with modelCalls := st.modelCalls + 1 }
  let tidsTruthy := match thread_ids with
    | some (_ :: _) => true
    | _ => false
  let tids := thread_ids.getD []
  let rolePairs :=
    if tidsTruthy then
      tids.filterMap (fun tid =>
        match pdGet st.cache (get_cache_key source contact_email tid) with
        | some e => if e.role ≠ "" && e.role ≠ "Unknown" then some (e.role, e.role_confidence) else none
        | none => none)
    else []
  let rolePick :=
    if tidsTruthy && rolePairs ≠ [] then
      (firstMostCommon (rolePairs.map (fun p => p.1)),
        (rolePairs.map (fun p => p.2)).sum / (rolePairs.length : ℚ))
    else ("Unknown", (0 : ℚ))
  match rolePick with
  | (contact_role, contact_role_conf) =>
    let loopOut :=
      if tidsTruthy then contactThreadLoop source contact_email contact_role contact_role_conf tids st.cache
      else ([], st.cache)
    let record : ContactRecord :=
      { id := pyStr source ++ ":" ++ pyStr contact_email
        email := contact_email
        source := source
        role := contact_role
        role_confidence := round3 contact_role_conf
        threads := loopOut.1
        summary := contact_summary_text
        timestamp := nowIso }
    (record, { st with cache := loopOut.2 })

/-! ## Reply draft queue and provider aggregation
(`src/providers/mcp_summaries_provider.py`; the `ReplyQueue` class itself,
`src/providers/reply_queue.py`, is imported by the provider but absent from
the repository snapshot, so its two operations are modelled from the spec). -/

/-- Association-list dict over an arbitrary (decidably equal) key type. -/
def adGet {κ α : Type} [BEq κ] (d : List (κ × α)) (k : κ) : Option α :=
  (d.find? (fun p => p.1 == k)).map (fun p => p.2)

def adInsert {κ α : Type} [BEq κ] : List (κ × α) → κ → α → List (κ × α)
  | [], k, v => [(k, v)]
  | p :: tl, k, v => if p.1 == k then (k, v) :: tl else p :: adInsert tl k v

def adErase {κ α : Type} [BEq κ] (d : List (κ × α)) (k : κ) : List (κ × α) :=
  d.filter (fun p => p.1 != k)

/-- Python `s[:n]`. -/
def pyTake (n : Nat) (s : String) : String :=
  ⟨s.data.take n⟩

/-- Python `a >= b` on strings (ISO-8601 timestamps compare correctly this way). -/
def strGeB (a b : String) : Bool :=
  !(strLtB a b)

/-- A queued reply draft (the dict built by `_enqueue_reply_draft`). -/
structure Draft where
  contact_id : String
  contact_email : String
  source : String
  thread_id : Option String
  subject : String
  thread_summary : String
  generated_reply : String
  prompt : String
  status : String
  last_message_ts : String
  importance : Option String
  role : Option String

/-- Modelled from the spec: `ReplyQueue.has_recent_draft(thread_id,
last_message_ts, statuses, contact_id)` (the class lives in
`src/providers/reply_queue.py`, which is missing from the snapshot).  Per
§4.5/§3 of the spec, it reports whether a draft for the same
`(contact_id, thread_id)` with a status among `statuses` already exists at
the same-or-later `last_message_ts`. -/
def has_recent_draft (queue : List Draft) (thread_id : Option String)
    (last_message_ts : String) (statuses : List String) (contact_id : String) : Bool :=
  queue.any (fun d =>
    d.thread_id == thread_id && d.contact_id == contact_id
      && statuses.contains d.status && strGeB d.last_message_ts last_message_ts)

/-- Modelled from the spec: `ReplyQueue.enqueue_draft(draft)` persists the
draft in the queue store. -/
def enqueue_draft (queue : List Draft) (draft : Draft) : List Draft :=
  queue ++ [draft]

/-- Provider state: the summarizer state plus the reply-draft queue. -/
structure PState where
  gstate : GState
  queue : List Draft := []

/-- `DEFAULT_REPLY_PROMPT`. -/
def DEFAULT_REPLY_PROMPT : String :=
  "You are an executive email assistant for a busy lab director. "
  ++ "Given the summary of the email thread and the metadata provided, draft a concise, polite reply "
  ++ "that acknowledges the sender, addresses the key request, and clearly states next steps. "
  ++ "Keep the reply under 5 sentences and maintain a professional, helpful tone."

/-- A fetched thread dict as `_from_gmail`/`_from_outlook` build them
(`none` = key absent). -/
structure PThread where
  id : Option String := none
  messages : Option (List Msg) := none
  subject : Option String := none
  preview : Option String := none
  last_message_ts : Option String := none
  last_message_id : Option String := none
  last_subject : Option String := none
  last_body : Option String := none

/-- A contact grouping as fetched from one provider. -/
structure PContact where
  id : Option String := none
  email : Option String := none
  source : Option String := none
  threads : List PThread := []

/-- A thread dict of the previous cycle's cached contact record. -/
structure ExThread where
  id : Option String := none
  summary : Option String := none
  body : Option String := none
  display_summary : Option String := none
  importance : Option String := none
  importance_confidence : Option ℚ := none
  role : Option String := none
  role_confidence : Option ℚ := none
  last_message_ts : Option String := none
  last_message_id : Option String := none
  last_subject : Option String := none
  last_body : Option String := none

/-- The previous cycle's contact record, as far as the merge reads it. -/
structure ExContact where
  threads : Option (List ExThread) := none

/-- A value of `thread_details`. -/
structure TDetails where
  importance : Option String
  importance_confidence : Option ℚ
  role : Option String
  role_confidence : Option ℚ
  last_message_ts : Option String
  last_message_id : Option String
  last_subject : Option String
  last_body : Option String

/-- `_should_generate_draft(classification)`: drafts are suppressed exactly
for the low-value importance set (an empty importance generates). -/
def should_generate_draft (classification : Classification) : Bool :=
  let importance := lowerStr classification.importance
  if importance == "" then true
  else !(["low", "spam", "junk", "ignore"].contains importance)

/-- The composed reply prompt of `_enqueue_reply_draft`. -/
def composed_reply_prompt (prompt_core summary_snippet contact_email : String)
    (classification : Classification) (latest_msg : Msg) (latest_body : String) : String :=
  prompt_core ++ "\n\nThread Summary:\n" ++ summary_snippet
  ++ "\n\nContact Email: " ++ contact_email
  ++ "\nRole: " ++ classification.role
  ++ "\nImportance: " ++ classification.importance
  ++ "\n\nMost Recent Message:\nSubject: " ++ latest_msg.subject.getD "(no subject)"
  ++ "\nBody:\n" ++ latest_body
  ++ "\n\nWrite the reply in first person plural (\"we\") unless the context clearly requires singular. Avoid apologies unless necessary."

/-- The contact id `_enqueue_reply_draft` computes:
`contact.get("id") or f"{source}:{contact_email}"`. -/
def contactIdOf (contact : PContact) : String :=
  if truthy contact.id then contact.id.getD ""
  else contact.source.getD "" ++ ":" ++ contact.email.getD ""

/-- `prompt_core = prompt_override or DEFAULT_REPLY_PROMPT`. -/
def promptCoreOf (prompt_override : Option String) : String :=
  if truthy prompt_override then prompt_override.getD "" else DEFAULT_REPLY_PROMPT

/-- The draft dict `_enqueue_reply_draft` builds and enqueues. -/
def mkDraft (g : String → String) (contact : PContact) (thread_id : Option String)
    (thread_summary : String) (classification : Classification) (latest_msg : Msg)
    (last_ts : String) (prompt_core : String) : Draft :=
  { contact_id := contactIdOf contact
    contact_email := contact.email.getD ""
    source := contact.source.getD ""
    thread_id := thread_id
    subject := if truthy latest_msg.subject then latest_msg.subject.getD "" else "(no subject)"
    thread_summary := pyStrip thread_summary
    generated_reply := pyStrip (g (composed_reply_prompt prompt_core
      (pyStrip thread_summary) (contact.email.getD "") classification latest_msg
      (pyTake 1200 (latest_msg.body.getD ""))))
    prompt := prompt_core
    status := "pending_review"
    last_message_ts := last_ts
    importance := some classification.importance
    role := some classification.role }

/-- The drafts stored for one `(contact_id, thread_id)` pair. -/
def draftsFor (queue : List Draft) (cid : String) (tid : Option String) : List Draft :=
  queue.filter (fun d => d.contact_id == cid && d.thread_id == tid)

/-- `_enqueue_reply_draft`: skip empty summaries and incomplete contacts,
generate the reply via the completion model, then — unless a recent draft in
`pending_review`/`approved`/`sent` already covers this
`(contact_id, thread_id)` at the same-or-later timestamp — enqueue a new
`pending_review` draft. -/
def enqueue_reply_draft (g : String → String) (st : PState) (contact : PContact)
    (thread_id : Option String) (thread_summary : String) (classification : Classification)
    (latest_msg : Msg) (last_ts : String) (prompt_override : Option String) : PState :=
  if thread_summary == "" then st
  else if !(truthy contact.email && truthy contact.source) then st
  else
    let contact_id := contactIdOf contact
    let prompt_core := promptCoreOf prompt_override
    let reply_text := g (composed_reply_prompt prompt_core (pyStrip thread_summary)
      (contact.email.getD "") classification latest_msg (pyTake 1200 (latest_msg.body.getD "")))
    let st := { st with gstate := { st.gstate with modelCalls := st.gstate.modelCalls + 1 } }
    if reply_text == "" then st
    else if has_recent_draft st.queue thread_id last_ts ["pending_review", "approved", "sent"] contact_id then st
    else
      let draft := mkDraft g contact thread_id thread_summary classification latest_msg last_ts prompt_core
      { st with queue := enqueue_draft st.queue draft }

/-- The draft-generation step of the provider's per-thread loop
(`if self._should_generate_draft(classification): self._enqueue_reply_draft(...)`). -/
def draftStep (g : String → String) (st : PState) (contact : PContact)
    (thread_id : Option String) (thread_summary : String) (classification : Classification)
    (latest_msg : Msg) (last_ts : String) : PState :=
  if should_generate_draft classification then
    enqueue_reply_draft g st contact thread_id thread_summary classification latest_msg last_ts none
  else st

/-- First truthy string of a Python `or`-chain, else `""`. -/
def firstTruthyStr : List (Option String) → String
  | [] => ""
  | o :: tl => match o with
    | some s => if s ≠ "" then s else firstTruthyStr tl
    | none => firstTruthyStr tl

/-- Accumulator of `_summarize_contact_threads`' per-thread loop. -/
structure ProvAcc where
  thread_ids : List (Option String)
  texts : List String
  details : List (Option String × TDetails)
  existing : List (String × ExThread)
  pst : PState

/-- The per-thread loop of `McpSummariesProvider._summarize_contact_threads`:
summarize each freshly fetched thread (feeding the cache), classify its
latest message, record its details, maybe enqueue a reply draft, and drop the
thread from the previous cycle's leftovers.  `normTs` abstracts
`_normalize_timestamp` (RFC-2822/ISO parsing, untouched by the claims);
exceptions abort the loop while keeping the state mutated so far. -/
def provLoop (g : String → String) (normTs : String → String) (contact : PContact) (now : ℚ) :
    List PThread → ProvAcc → Option PyExn × ProvAcc
  | [], acc => (none, acc)
  | t :: rest, acc =>
    let tid := t.id
    let emailsE : Except PyExn (List Msg) :=
      match t.messages with
      | some ms => .ok ms
      | none =>
        match contact.email with
        | none => .error .keyError
        | some e => .ok [{ sender := some e, subject := some (t.subject.getD ""), body := some (t.preview.getD "") }]
    match emailsE with
    | .error ex => (some ex, { acc with thread_ids := acc.thread_ids ++ [tid] })
    | .ok thread_emails =>
      let sres := summarize_thread g acc.pst.gstate thread_emails contact.source contact.email tid false now
      let acc := { acc with
        thread_ids := acc.thread_ids ++ [tid]
        pst := { acc.pst with gstate := sres.2 } }
      match sres.1 with
      | .error ex => (some ex, acc)
      | .ok summary =>
        let acc := { acc with texts := acc.texts ++ [summary] }
        let latest_msg := (thread_emails.getLast?).getD {}
        match classify_email_py (latest_msg.sender <|> contact.email)
            (some (latest_msg.subject.getD "")) (some (latest_msg.body.getD "")) with
        | .error ex => (some ex, acc)
        | .ok classification =>
          let last_ts := if truthy t.last_message_ts then t.last_message_ts.getD ""
            else normTs (latest_msg.date.getD "")
          let det : TDetails :=
            { importance := some classification.importance
              importance_confidence := some classification.importance_confidence
              role := some classification.role
              role_confidence := some classification.role_confidence
              last_message_ts := some last_ts
              last_message_id := t.last_message_id
              last_subject := t.last_subject
              last_body := t.last_body }
          let acc := { acc with details := adInsert acc.details tid det }
          let acc := { acc with pst := draftStep g acc.pst contact tid summary classification latest_msg last_ts }
          let acc :=
            match tid with
            | some s => if (adGet acc.existing s).isSome then { acc with existing := adErase acc.existing s } else acc
            | none => acc
          provLoop g normTs contact now rest acc

/-- The preservation loop: every thread of the previous record that was not
refetched keeps its details and re-enters the id list (its stored summary
text, if truthy, joins the contact-summary input). -/
def preserveLoop : List (String × ExThread) → ProvAcc → ProvAcc
  | [], acc => acc
  | (tidS, old) :: rest, acc =>
    let summary_text := firstTruthyStr [old.summary, old.body, old.display_summary]
    let acc := { acc with texts := if summary_text ≠ "" then acc.texts ++ [summary_text] else acc.texts }
    let det : TDetails :=
      { importance := old.importance
        importance_confidence := old.importance_confidence
        role := old.role
        role_confidence := old.role_confidence
        last_message_ts := old.last_message_ts
        last_message_id := old.last_message_id
        last_subject := old.last_subject
        last_body := old.last_body }
    let acc := { acc with
      thread_ids := acc.thread_ids ++ [some tidS]
      details := adInsert acc.details (some tidS) det }
    preserveLoop rest acc

/-- The final overwrite loop: each thread dict of the summarizer's record is
patched from `thread_details` — when a details row exists its (possibly
`None`) values replace the four classification fields, and the `last_*`
fields are set from `details.get(...)` with no fallback. -/
def patchThreadMeta (details : List (Option String × TDetails)) (tm : TMeta) : TMeta :=
  match adGet details tm.id with
  | some d =>
    { tm with
      importance := d.importance
      importance_confidence := d.importance_confidence
      role := d.role
      role_confidence := d.role_confidence
      last_message_ts := d.last_message_ts
      last_message_id := d.last_message_id
      last_subject := d.last_subject
      last_body := d.last_body }
  | none =>
    { tm with
      last_message_ts := none
      last_message_id := none
      last_subject := none
      last_body := none }

/-- `McpSummariesProvider._summarize_contact_threads(contact,
existing_contact)`: summarize the fetched threads, re-append every
not-refetched previous thread, produce the contact-level record, and patch
its thread dicts from `thread_details`. -/
def provider_summarize_contact (g : String → String) (normTs : String → String)
    (pst : PState) (contact : PContact) (existing_contact : Option ExContact)
    (now : ℚ) (nowIso : String) : Except PyExn ContactRecord × PState :=
  let existing0 : List (String × ExThread) :=
    match existing_contact with
    | some ec => (ec.threads.getD []).foldl
        (fun d t => match t.id with
          | some s => if s ≠ "" then adInsert d s t else d
          | none => d) []
    | none => []
  let acc0 : ProvAcc := { thread_ids := [], texts := [], details := [], existing := existing0, pst := pst }
  match provLoop g normTs contact now contact.threads acc0 with
  | (some ex, acc) => (.error ex, acc.pst)
  | (none, acc) =>
    let acc := preserveLoop acc.existing acc
    let cres := summarize_contact_threads g acc.pst.gstate acc.texts contact.source
      contact.email (some acc.thread_ids) false nowIso
    let record := cres.1
    let patched := { record with threads := record.threads.map (patchThreadMeta acc.details) }
    (.ok patched, { acc.pst with gstate := cres.2 })

/-! ## Retry wrapper (`src/auto_summarizer_loop.py`, `safe_summarize_thread`) -/

/-- Result of the wrapper: the wrapped call's value, or the structured
`{"error": message}` dict. -/
inductive SafeResult (A : Type) where
  | value (v : A)
  | errorDict (msg : String)
deriving DecidableEq

/-- The rate-limit test of `safe_summarize_thread`:
`"rate_limit" in str(e).lower() or "429" in str(e)`. -/
def is_rate_limit_msg (msg : String) : Bool :=
  strIn "rate_limit" (lowerStr msg) || strIn "429" msg

/-- The attempt loop of `safe_summarize_thread`.  `outcome i` is what
`summarize_thread_logic` does on attempt `i` (1-based): a value or a raised
exception's message.  Returns the wrapper's result together with the list of
`time.sleep` delays performed (2s, doubling). -/
def safeLoop {A : Type} (outcome : Nat → Except String A) (thread_id : String) :
    Nat → Nat → Nat → SafeResult A × List Nat
  | _, 0, _ => (.errorDict ("Max retries exceeded for " ++ thread_id), [])
  | attempt, remaining + 1, delay =>
    match outcome attempt with
    | .ok v => (.value v, [])
    | .error msg =>
      if is_rate_limit_msg msg then
        let r := safeLoop outcome thread_id (attempt + 1) remaining (delay * 2)
        (r.1, delay :: r.2)
      else
        (.errorDict msg, [])

/-- `safe_summarize_thread(source, contact_email, thread_id, ...,
max_retries=5)`: retry only rate-limit errors, sleeping a doubling delay
starting at 2s, for at most `max_retries` attempts; any other exception is
returned at once as `{"error": str(e)}`; exhaustion yields
`{"error": f"Max retries exceeded for {thread_id}"}`. -/
def safe_summarize_thread {A : Type} (outcome : Nat → Except String A)
    (thread_id : String) (max_retries : Nat) : SafeResult A × List Nat :=
  safeLoop outcome thread_id 1 max_retries 2


/-- The doubling sleep schedule starting at `d`. -/
def doublingDelays (d : Nat) : Nat → List Nat
  | 0 => []
  | n + 1 => d :: doublingDelays (d * 2) n

/-- Build a `JvObj` from a key-value list. -/
def mkObj : List (String × Jv) → JvObj :=
  fun l => l.foldr (fun p acc => JvObj.cons p.1 p.2 acc) .nil

/-- Build a `JvList` from a value list. -/
def mkArr : List Jv → JvList :=
  fun l => l.foldr .cons .nil

/-- The dict rows of an incoming row list (non-dicts are skipped by the
upsert loop). -/
def objRows (rows : List Jv) : List JvObj :=
  rows.filterMap (fun r => match r with | .obj o => some o | _ => none)

/-- An incoming dict row whose semantic content — `contact_summary`, `role`
and `role_confidence` under `str()`, and the stable-JSON `threads` encoding —
is identical to the row the store already persists under its dedup key. -/
def semantically_unchanged (lk : Lookup) (now_iso : String) (o : JvObj) : Prop :=
  rowKey o now_iso ≠ "" →
  ∃ e, dictGet lk (rowKey o now_iso) = some e ∧
    jvEq e.contact_summary (normalize_row_payload o now_iso).contact_summary = true ∧
    pyStrOf e.role = pyStrOf (normalize_row_payload o now_iso).role ∧
    pyStrOf e.role_confidence = pyStrOf (normalize_row_payload o now_iso).role_confidence ∧
    jvEq (stable_json e.threads) (stable_json (normalize_row_payload o now_iso).threads) = true

/-- `ws.get_all_records()` on a just-written matrix: header keys zipped with
each later row's (string) cells. -/
def matrixToRecords (m : List (List String)) : List JvObj :=
  (m.drop 1).map (fun cells => mkObj ((HEADER.zip cells).map (fun p => (p.1, Jv.s p.2))))

/-- Concrete scenario for the C8 witness. -/
def w8contact : PContact := { id := none, email := some "a@x.com", source := some "gmail" }

def w8cls : Classification := ⟨"Unknown", 0, "High", 0⟩

def w8g : String → String := fun _ => "R"

def w8st1 : PState := draftStep w8g ⟨{}, []⟩ w8contact (some "t1") "Sum" w8cls {} "2024-01-01T00:00:00Z"

def w8st2 : PState := draftStep w8g w8st1 w8contact (some "t1") "Sum" w8cls {} "2024-01-01T00:00:00Z"

def w8st3 : PState := draftStep w8g w8st2 w8contact (some "t1") "Sum" w8cls {} "2024-01-02T00:00:00Z"

/-- A constant completion-model oracle and an identity timestamp
normalizer, for concrete pipeline runs. -/
def oracleS : String → String := fun _ => "S"

def tsIdentity : String → String := fun s => s

/-- C4 failing input: one contact with two fetched threads whose latest
messages classify to different roles (sender "hr@x" scores Admin via the
sender-override table; sender "a@b" falls to the General External default). -/
def c4m1 : Msg := { sender := some "hr@x", subject := some "", body := some "" }

def c4m2 : Msg := { sender := some "a@b", subject := some "", body := some "" }

def c4t1 : PThread :=
  { id := some "t1", messages := some [c4m1], last_message_ts := some "2024-01-01T00:00:00+00:00" }

def c4t2 : PThread :=
  { id := some "t2", messages := some [c4m2], last_message_ts := some "2024-01-02T00:00:00+00:00" }

def c4contact : PContact := { email := some "a@b", source := some "gmail", threads := [c4t1, c4t2] }

/-- The contact record the provider pipeline produces on the C4 input
(fresh caches, no previous record). -/
def c4record : ContactRecord :=
  match (provider_summarize_contact oracleS tsIdentity ⟨{}, []⟩ c4contact none 0 "NOW").1 with
  | .ok r => r
  | .error _ => ⟨"", none, none, "", 0, [], "", ""⟩

/-- C3 scenario: contact "p@q" on gmail; the previous record knows threads
A and B, the new fetch returns only B and C. -/
def c3mB : Msg := { sender := some "p@q", subject := some "sB", body := some "bB" }

def c3mC : Msg := { sender := some "p@q", subject := some "sC", body := some "bC" }

def c3tB : PThread :=
  { id := some "B", messages := some [c3mB], last_message_ts := some "2024-02-01T00:00:00+00:00",
    last_subject := some "sB", last_body := some "bB" }

def c3tC : PThread :=
  { id := some "C", messages := some [c3mC], last_message_ts := some "2024-02-02T00:00:00+00:00",
    last_subject := some "sC", last_body := some "bC" }

def c3contact : PContact := { email := some "p@q", source := some "gmail", threads := [c3tB, c3tC] }

/-- The previous record's thread A (not refetched this cycle). -/
def c3oldA : ExThread :=
  { id := some "A", summary := some "Old A summary", importance := some "High",
    importance_confidence := some 1, role := some "Faculty", role_confidence := some 1,
    last_message_ts := some "2024-01-01T00:00:00+00:00", last_message_id := some "midA",
    last_subject := some "sA", last_body := some "bA" }

/-- The previous record's thread B (refetched this cycle). -/
def c3oldB : ExThread :=
  { id := some "B", summary := some "Old B summary",
    last_message_ts := some "2024-01-15T00:00:00+00:00" }

/-- A summarizer-cache entry for thread A, still present. -/
def c3eA : CacheEntry :=
  { summary := "Cached A summary", subject := "sA-c", preview := "bA-c",
    role := "Faculty", importance := "High", role_confidence := 1,
    importance_confidence := 1, timestamp := 5 }

def c3cacheA : List (String × CacheEntry) := [("gmail:p@q:A", c3eA)]

/-- The record the pipeline produces for the C3 counterexample: previous
record {A, B}, fetch {B, C}, and an *empty* summarizer cache. -/
def c3record : ContactRecord :=
  match (provider_summarize_contact oracleS tsIdentity ⟨{}, []⟩ c3contact
      (some ⟨some [c3oldA, c3oldB]⟩) 0 "NOW").1 with
  | .ok r => r
  | .error _ => ⟨"", none, none, "", 0, [], "", ""⟩

/-! ## Helper lemmas about the Python-dict models -/

theorem pdGet_insert_self {α : Type} (d : List (String × α)) (k : String) (v : α) :
    pdGet (pdInsert d k v) k = some v := by
  induction d with
  | nil => simp [pdGet, pdInsert, List.find?]
  | cons p tl ih =>
    by_cases h : p.1 == k
    · simp [pdInsert, h, pdGet, List.find?]
    · simp only [pdInsert, h, if_false, Bool.false_eq_true]
      simpa [pdGet, List.find?, h] using ih

theorem pdGet_insert_ne {α : Type} (d : List (String × α)) (k k2 : String) (v : α)
    (h : (k2 == k) = false) : pdGet (pdInsert d k2 v) k = pdGet d k := by
  induction d with
  | nil => simp [pdGet, pdInsert, List.find?, h]
  | cons p tl ih =>
    by_cases hp : p.1 == k2
    · have hpk : (p.1 == k) = false := by
        have := eq_of_beq hp
        simpa [this] using h
      simp [pdInsert, hp, pdGet, List.find?, h, hpk]
    · simp only [pdInsert, hp, if_false, Bool.false_eq_true]
      by_cases hk : p.1 == k
      · simp [pdGet, List.find?, hk]
      · simpa [pdGet, List.find?, hk] using ih

/-! ## C5 — TTL expiry of the summary cache -/

/-- C5: a cache entry written at time `T` under TTL `H` is returned (entry
and cache untouched) by `_get_from_cache` at any query time strictly before
`T + H`, and is removed — with `None` returned — at any query time strictly
after `T + H`. -/
theorem get_from_cache_ttl (st : GState) (source contact_email thread_id : Option String)
    (entry : CacheEntry) (H now : ℚ)
    (hin : pdGet st.cache (get_cache_key source contact_email thread_id) = some entry) :
    (now < entry.timestamp + H →
      get_from_cache st source contact_email thread_id now H = (some entry.summary, st)) ∧
    (entry.timestamp + H < now →
      get_from_cache st source contact_email thread_id now H =
        (none, { st with cache := pdErase st.cache (get_cache_key source contact_email thread_id) })) := by
  constructor
  · intro h
    simp only [get_from_cache, hin]
    rw [if_neg (by push_neg; linarith)]
  · intro h
    simp only [get_from_cache, hin]
    rw [if_pos (by linarith)]

/-- Witness for C5 at a concrete entry: written at `T = 10` with `H = 5`,
retrievable at `now = 12`, gone at `now = 100`. -/
theorem get_from_cache_ttl_witness :
    get_from_cache ⟨[("gmail:a@b:t", { summary := "cached!", timestamp := 10 })], 0⟩
        (some "gmail") (some "a@b") (some "t") 12 5 =
      (some "cached!", ⟨[("gmail:a@b:t", { summary := "cached!", timestamp := 10 })], 0⟩) ∧
    get_from_cache ⟨[("gmail:a@b:t", { summary := "cached!", timestamp := 10 })], 0⟩
        (some "gmail") (some "a@b") (some "t") 100 5 =
      (none, ⟨[], 0⟩) := by
  have h := get_from_cache_ttl ⟨[("gmail:a@b:t", { summary := "cached!", timestamp := 10 })], 0⟩
    (some "gmail") (some "a@b") (some "t") ({ summary := "cached!", timestamp := 10 }) 5
  constructor
  · exact (h 12 rfl).1 (by norm_num)
  · have h2 := (h 100 rfl).2 (by norm_num)
    simpa [pdErase, get_cache_key, pyStr] using h2

/-! ## C10 — missing key components skip the cache entirely -/

/-- C10: with `force=False` and any of `thread_id`, `source`,
`contact_email` missing (`None` or empty), `summarize_thread` neither reads
nor writes the cache — the returned state differs from the input state only
in the completion-call counter — and the completion model is invoked on
every such call. -/
theorem summarize_thread_skips_cache (g : String → String) (st : GState) (msgs : List Msg)
    (source contact_email thread_id : Option String) (now : ℚ)
    (h : truthy thread_id = false ∨ truthy source = false ∨ truthy contact_email = false) :
    summarize_thread g st msgs source contact_email thread_id false now =
      (.ok (g (thread_prompt (combineThread msgs))),
        { st with modelCalls := st.modelCalls + 1 }) := by
  have hb : (truthy thread_id && truthy source && truthy contact_email) = false := by
    rcases h with h | h | h <;> simp [h]
  simp [summarize_thread, hb]

/-- Witness for C10: a call with `contact_email = None` leaves the cache
untouched and bumps only the model-call counter. -/
theorem summarize_thread_skips_cache_witness :
    summarize_thread (fun _ => "SUM") ⟨[], 0⟩ [] (some "gmail") none (some "T") false 5 =
      (.ok "SUM", ⟨[], 1⟩) := by
  have h := summarize_thread_skips_cache (fun _ => "SUM") ⟨[], 0⟩ []
    (some "gmail") none (some "T") 5 (Or.inr (Or.inr rfl))
  simpa using h

/-! ## C2 — cache idempotence of `summarize_thread` -/

/-- C2: with non-empty `source`, `contact_email` and `thread_id`
(`force=False`), a thread (per the data model, one or more messages) not yet
in the cache: the first call invokes the completion model exactly once and
stores the produced summary; the second identical call leaves the state
untouched (zero further model calls) and returns the stored summary
unchanged. -/
theorem summarize_thread_idempotent (g : String → String) (st0 : GState) (msgs : List Msg)
    (source contact_email thread_id : Option String) (now1 now2 : ℚ)
    (hs : truthy source = true) (hc : truthy contact_email = true) (ht : truthy thread_id = true)
    (hm : msgs ≠ [])
    (hmiss : pdGet st0.cache (get_cache_key source contact_email thread_id) = none) :
    ∃ s st1,
      summarize_thread g st0 msgs source contact_email thread_id false now1 = (.ok s, st1) ∧
      st1.modelCalls = st0.modelCalls + 1 ∧
      (∃ e, pdGet st1.cache (get_cache_key source contact_email thread_id) = some e ∧ e.summary = s) ∧
      summarize_thread g st1 msgs source contact_email thread_id false now2 = (.ok s, st1) := by
  match msgs, hm with
  | m0 :: tl, _ =>
    refine ⟨g (thread_prompt (combineThread (m0 :: tl))),
      { cache := pdInsert st0.cache (get_cache_key source contact_email thread_id)
          ({ summary := g (thread_prompt (combineThread (m0 :: tl)))
             subject := m0.subject.getD ""
             preview := pyTake100 (m0.body.getD "")
             role := (threadClassification (m0 :: tl) contact_email).role
             importance := (threadClassification (m0 :: tl) contact_email).importance
             role_confidence := (threadClassification (m0 :: tl) contact_email).role_confidence
             importance_confidence := (threadClassification (m0 :: tl) contact_email).importance_confidence
             timestamp := now1 })
        modelCalls := st0.modelCalls + 1 }, ?_, ?_, ?_, ?_⟩
    · simp [summarize_thread, hs, hc, ht, hmiss]
    · rfl
    · exact ⟨_, pdGet_insert_self _ _ _, rfl⟩
    · simp [summarize_thread, hs, hc, ht, pdGet_insert_self]

/-- Witness for C2 at a concrete thread, oracle and empty cache. -/
theorem summarize_thread_idempotent_witness :
    ∃ s st1,
      summarize_thread (fun _ => "SUM") ⟨[], 0⟩ [{ sender := some "x@y", subject := some "s", body := some "b" }]
        (some "gmail") (some "x@y") (some "T") false 100 = (.ok s, st1) ∧
      st1.modelCalls = 0 + 1 ∧
      (∃ e, pdGet st1.cache (get_cache_key (some "gmail") (some "x@y") (some "T")) = some e ∧ e.summary = s) ∧
      summarize_thread (fun _ => "SUM") st1 [{ sender := some "x@y", subject := some "s", body := some "b" }]
        (some "gmail") (some "x@y") (some "T") false 200 = (.ok s, st1) :=
  summarize_thread_idempotent (fun _ => "SUM") ⟨[], 0⟩ _ (some "gmail") (some "x@y") (some "T")
    100 200 rfl rfl rfl (by simp) rfl

/-! ## C9 — bounded retry with exponential backoff in the loop wrapper -/


theorem safeLoop_rate_limited {A : Type} (outcome : Nat → Except String A) (thread_id : String) :
    ∀ (n a d : Nat),
      (∀ i, a ≤ i → i < a + n → ∃ m, outcome i = .error m ∧ is_rate_limit_msg m = true) →
      safeLoop outcome thread_id a n d =
        (.errorDict ("Max retries exceeded for " ++ thread_id), doublingDelays d n) := by
  intro n
  induction n with
  | zero => intro a d _; rfl
  | succ k ih =>
    intro a d h
    obtain ⟨m, hm, hrl⟩ := h a le_rfl (by omega)
    have hrec := ih (a + 1) (d * 2) (fun i h1 h2 => h i (by omega) (by omega))
    simp [safeLoop, hm, hrl, hrec, doublingDelays]

/-- C9: in `safe_summarize_thread`, when every attempt raises a rate-limit
error the wrapper retries exactly `max_retries` times with the doubling
2s/4s/8s/… sleep schedule and then gives up with the structured
`{"error": "Max retries exceeded for …"}` result; a first-attempt failure
that is not a rate-limit error is returned immediately as
`{"error": message}` with no sleep and no retry. -/
theorem safe_summarize_thread_error_handling {A : Type} (outcome : Nat → Except String A)
    (thread_id : String) (max_retries : Nat) :
    ((∀ i, 1 ≤ i → i ≤ max_retries → ∃ m, outcome i = .error m ∧ is_rate_limit_msg m = true) →
      safe_summarize_thread outcome thread_id max_retries =
        (.errorDict ("Max retries exceeded for " ++ thread_id), doublingDelays 2 max_retries)) ∧
    (∀ m, outcome 1 = .error m → is_rate_limit_msg m = false → 1 ≤ max_retries →
      safe_summarize_thread outcome thread_id max_retries = (.errorDict m, [])) := by
  constructor
  · intro h
    exact safeLoop_rate_limited outcome thread_id max_retries 1 2
      (fun i h1 h2 => h i h1 (by omega))
  · intro m hm hrl hn
    match max_retries, hn with
    | k + 1, _ => simp [safe_summarize_thread, safeLoop, hm, hrl]

/-- Witness for C9: five straight HTTP-429 failures exhaust the retries with
sleeps [2,4,8,16,32]; a "boom" failure returns at once with no sleeps. -/
theorem safe_summarize_thread_error_handling_witness :
    safe_summarize_thread (fun _ => (.error "429 Too Many Requests" : Except String Unit)) "T7" 5 =
      (.errorDict ("Max retries exceeded for " ++ "T7"), [2, 4, 8, 16, 32]) ∧
    safe_summarize_thread (fun _ => (.error "boom" : Except String Unit)) "T7" 5 =
      (.errorDict "boom", []) := by
  constructor
  · have h := (safe_summarize_thread_error_handling
        (fun _ => (.error "429 Too Many Requests" : Except String Unit)) "T7" 5).1
      (fun i _ _ => ⟨"429 Too Many Requests", rfl, by decide⟩)
    simpa [doublingDelays] using h
  · exact (safe_summarize_thread_error_handling
        (fun _ => (.error "boom" : Except String Unit)) "T7" 5).2
      "boom" rfl (by decide) (by omega)

/-! ## C7 — classifier defaults and (non-)handling of absent inputs -/

/-- C7 counterexample: a `None` (absent) sender is not defaulted to the
empty string — it reaches `sender_email.lower()` inside `classify_role` and
raises `AttributeError`, so "classify never raises; absent inputs default to
empty strings" fails at this concrete input. -/
theorem classify_email_none_sender_raises :
    classify_email_py none (some "") (some "") = .error .attributeError := rfl

/-- C7 amended: on string inputs (present, possibly empty) `classify_email`
never raises, and `classify("", "", "")` yields the default classification —
role "General External" at confidence 0.4 and importance "Medium" at
confidence 0.4; a `None` sender, however, is not defaulted and raises. -/
theorem classify_email_defaults :
    (∀ sender subject body : String,
      classify_email_py (some sender) (some subject) (some body) =
        .ok (classify_email sender subject body)) ∧
    classify_email "" "" "" =
      { role := "General External", role_confidence := 0.4,
        importance := "Medium", importance_confidence := 0.4 } := by
  constructor
  · intro s j b
    rfl
  · rfl

/-! ## C6 — `last_summary` freshness on staged updates -/

theorem dictGet_insert_self (d : Lookup) (k : String) (v : NRow) :
    dictGet (dictInsert d k v) k = some v := by
  induction d with
  | nil => simp [dictGet, dictInsert, List.find?]
  | cons p tl ih =>
    by_cases h : p.1 == k
    · simp [dictInsert, h, dictGet, List.find?]
    · simp only [dictInsert, h, if_false, Bool.false_eq_true]
      simpa [dictGet, List.find?, h] using ih

/-- C6: when the incoming-row loop stages an update for an existing dedup
key, the staged row's `last_summary` is the current time exactly when the
incoming `contact_summary` differs from the stored one, and is the stored
row's `last_summary` otherwise (another semantic field having triggered the
update). -/
theorem upsert_update_sets_last_summary (now_iso : String) (st : Staging) (o : JvObj) (e : NRow)
    (hk : rowKey o now_iso ≠ "")
    (hget : dictGet st.lookup (rowKey o now_iso) = some e)
    (hup : should_update e (normalize_row_payload o now_iso) = true) :
    ∃ staged,
      dictGet (upsert_merge_row now_iso st (.obj o)).lookup (rowKey o now_iso) = some staged ∧
      (upsert_merge_row now_iso st (.obj o)).updates = st.updates + 1 ∧
      (jvEq e.contact_summary (normalize_row_payload o now_iso).contact_summary = false →
        staged.last_summary = .s now_iso) ∧
      (jvEq e.contact_summary (normalize_row_payload o now_iso).contact_summary = true →
        staged.last_summary = e.last_summary) := by
  refine ⟨{ normalize_row_payload o now_iso with last_summary := if !(jvEq e.contact_summary (normalize_row_payload o now_iso).contact_summary) then .s now_iso else e.last_summary }, ?_, ?_, ?_, ?_⟩
  · simp [upsert_merge_row, hk, hget, hup, dictGet_insert_self]
  · simp [upsert_merge_row, hk, hget, hup]
  · intro hcs
    simp [hcs]
  · intro hcs
    simp [hcs]

/-- Stored row used by the C6 witness (the normalized view of a persisted
sheet row). -/
def w6stored : NRow :=
  { id := "gmail:a@b", email := "a@b", source := "gmail", role := .s "Admin",
    role_confidence := .s "0.95", contact_summary := .s "hello",
    threads := .s "[]", last_summary := .s "2024-01-01T00:00:00+00:00" }

/-- C6 witness rows: one changes `contact_summary`, one changes only `role`
(while lying about `last_summary`). -/
def w6rowSummary : JvObj := mkObj
  [("id", .s "gmail:a@b"), ("email", .s "a@b"), ("source", .s "gmail"),
   ("role", .s "Admin"), ("role_confidence", .s "0.95"), ("contact_summary", .s "CHANGED"),
   ("threads", .s "[]"), ("last_summary", .s "2024-01-01T00:00:00+00:00")]

def w6rowRole : JvObj := mkObj
  [("id", .s "gmail:a@b"), ("email", .s "a@b"), ("source", .s "gmail"),
   ("role", .s "Faculty"), ("role_confidence", .s "0.95"), ("contact_summary", .s "hello"),
   ("threads", .s "[]"), ("last_summary", .s "2099-09-09T00:00:00+00:00")]

/-- Witness for C6: with the same stored row, a changed summary stamps the
staged row with the current time, while a role-only change keeps the stored
timestamp (ignoring the incoming one). -/
theorem upsert_update_sets_last_summary_witness :
    (∃ staged,
      dictGet (upsert_merge_row "NOW3" ⟨0, 0, [("gmail:a@b", w6stored)]⟩ (.obj w6rowSummary)).lookup
          (rowKey w6rowSummary "NOW3") = some staged ∧
      staged.last_summary = .s "NOW3") ∧
    (∃ staged,
      dictGet (upsert_merge_row "NOW3" ⟨0, 0, [("gmail:a@b", w6stored)]⟩ (.obj w6rowRole)).lookup
          (rowKey w6rowRole "NOW3") = some staged ∧
      staged.last_summary = .s "2024-01-01T00:00:00+00:00") := by
  constructor
  · obtain ⟨staged, h1, _, h3, _⟩ := upsert_update_sets_last_summary "NOW3"
      ⟨0, 0, [("gmail:a@b", w6stored)]⟩ w6rowSummary w6stored (by decide) (by rfl) (by rfl)
    exact ⟨staged, h1, h3 (by rfl)⟩
  · obtain ⟨staged, h1, _, _, h4⟩ := upsert_update_sets_last_summary "NOW3"
      ⟨0, 0, [("gmail:a@b", w6stored)]⟩ w6rowRole w6stored (by decide) (by rfl) (by rfl)
    exact ⟨staged, h1, h4 (by rfl)⟩

/-! ## C1 — second-call idempotence of the sheet upsert -/

theorem foldl_fixed {α β : Type} (f : β → α → β) (b : β) :
    ∀ l : List α, (∀ a ∈ l, f b a = b) → l.foldl f b = b := by
  intro l
  induction l with
  | nil => intro _; rfl
  | cons x xs ih =>
    intro h
    have hx : f b x = b := h x (by simp)
    simp only [List.foldl, hx]
    exact ih (fun a ha => h a (by simp [ha]))

theorem merge_row_fixed (now_iso : String) (lk : Lookup) (i u : Nat) (row : Jv)
    (h : ∀ o, row = .obj o → semantically_unchanged lk now_iso o) :
    upsert_merge_row now_iso ⟨i, u, lk⟩ row = ⟨i, u, lk⟩ := by
  cases row with
  | obj o =>
    have hsem := h o rfl
    by_cases hk : rowKey o now_iso = ""
    · simp [upsert_merge_row, hk]
    · obtain ⟨e, hget, h1, h2, h3, h4⟩ := hsem hk
      have hup : should_update e (normalize_row_payload o now_iso) = false := by
        simp [should_update, h1, h2, h3, h4]
      simp [upsert_merge_row, hk, hget, hup]
  | null => rfl
  | s v => rfl
  | num q => rfl
  | arr l => rfl

/-- C1: a second `upsert_summaries` call whose (dict, keyed) rows carry
semantic content — `contact_summary`, `str(role)`, `str(role_confidence)`,
stable-JSON `threads` — identical to what the first call persisted under the
same dedup keys stages zero inserts and zero updates, leaves the lookup as
loaded, and skips the sheet write entirely. -/
theorem upsert_second_call_is_noop (pdate : String → Option ℚ) (existing_records : List JvObj)
    (new_rows : List Jv) (now_iso : String)
    (h : ∀ o ∈ objRows new_rows,
      semantically_unchanged (build_existing_lookup existing_records now_iso) now_iso o) :
    upsert_summaries pdate existing_records new_rows now_iso =
      ⟨0, 0, build_existing_lookup existing_records now_iso, none⟩ := by
  have hfold : new_rows.foldl (upsert_merge_row now_iso)
      ⟨0, 0, build_existing_lookup existing_records now_iso⟩ =
      ⟨0, 0, build_existing_lookup existing_records now_iso⟩ := by
    refine foldl_fixed _ _ _ (fun row hrow => ?_)
    refine merge_row_fixed now_iso _ 0 0 row (fun o ho => ?_)
    refine h o ?_
    simp only [objRows, List.mem_filterMap]
    exact ⟨row, hrow, by rw [ho]⟩
  simp [upsert_summaries, hfold]

/-- The C1 witness row: a full contact row whose `threads` dicts happen to
carry their keys in sorted order, so the plain persisted encoding matches
the canonical one. -/
def w1row : Jv := .obj (mkObj
  [("id", .s "gmail:a@b"), ("email", .s "a@b"), ("source", .s "gmail"),
   ("role", .s "Admin"), ("role_confidence", .s "0.95"), ("contact_summary", .s "hello"),
   ("threads", .arr (mkArr [.obj (mkObj [("id", .s "t1"), ("summary", .s "x")])])),
   ("last_summary", .s "2024-01-01T00:00:00+00:00")])

/-- The sheet as the second call reads it: the records view of the matrix
the first `upsert_summaries [w1row]` call wrote. -/
def w1sheet : List JvObj :=
  matrixToRecords (((upsert_summaries (fun _ => none) [] [w1row] "NOW1").write).getD [])

/-- Witness for C1: running the upsert a second time, against the records
the first call persisted, with the byte-identical row, stages nothing and
performs no write. -/
theorem upsert_second_call_is_noop_witness :
    upsert_summaries (fun _ => none) w1sheet [w1row] "NOW2" =
      ⟨0, 0, build_existing_lookup w1sheet "NOW2", none⟩ := by
  refine upsert_second_call_is_noop (fun _ => none) w1sheet [w1row] "NOW2" ?_
  intro o ho
  have hobj : objRows [w1row] = [mkObj
    [("id", .s "gmail:a@b"), ("email", .s "a@b"), ("source", .s "gmail"),
     ("role", .s "Admin"), ("role_confidence", .s "0.95"), ("contact_summary", .s "hello"),
     ("threads", .arr (mkArr [.obj (mkObj [("id", .s "t1"), ("summary", .s "x")])])),
     ("last_summary", .s "2024-01-01T00:00:00+00:00")]] := rfl
  rw [hobj] at ho
  rw [List.mem_singleton] at ho
  subst ho
  intro _
  exact ⟨_, by rfl, by rfl, by rfl, by rfl, by rfl⟩

/-! ## C8 — reply-draft gating and deduplication -/

theorem truthy_none : truthy none = false := rfl

theorem charListLt_irrefl : ∀ l : List Char, charListLt l l = false := by
  intro l
  induction l with
  | nil => rfl
  | cons c tl ih => simp [charListLt, ih]

theorem strGeB_refl (a : String) : strGeB a a = true := by
  simp [strGeB, strLtB, charListLt_irrefl]

/-- When the drafts store holds nothing for `(contact_id, thread_id)`, no
recent draft can be found for that pair. -/
theorem no_recent_of_no_drafts (q : List Draft) (cid : String) (tid : Option String)
    (ts : String) (sts : List String) (h : draftsFor q cid tid = []) :
    has_recent_draft q tid ts sts cid = false := by
  have hall := List.filter_eq_nil_iff.mp h
  rw [has_recent_draft, List.any_eq_false]
  intro d hd
  have hnm := hall d hd
  by_cases h1 : (d.thread_id == tid) = true
  · by_cases h2 : (d.contact_id == cid) = true
    · exact absurd (by simp [h1, h2]) hnm
    · simp [h1, h2]
  · simp [h1]

/-- A matching queued draft makes `has_recent_draft` fire. -/
theorem recent_of_mem (q : List Draft) (d : Draft) (cid : String) (tid : Option String)
    (ts : String) (sts : List String) (hd : d ∈ q)
    (h1 : d.thread_id = tid) (h2 : d.contact_id = cid) (h3 : sts.contains d.status = true)
    (h4 : strGeB d.last_message_ts ts = true) :
    has_recent_draft q tid ts sts cid = true := by
  rw [has_recent_draft, List.any_eq_true]
  refine ⟨d, hd, ?_⟩
  simp only [h1, h2, h3, h4, beq_self_eq_true, Bool.and_true, Bool.true_and, Bool.and_self]

/-- Positive unfolding of the provider's draft step: with the importance
gate open, a non-empty summary, a complete contact, a non-empty generated
reply, and no recent draft, the step appends exactly the new
`pending_review` draft. -/
theorem draftStep_enqueues (g : String → String) (st : PState) (contact : PContact)
    (tid : Option String) (summary : String) (cls : Classification) (latest : Msg) (ts : String)
    (hgen : should_generate_draft cls = true)
    (hsum : summary ≠ "")
    (hem : truthy contact.email = true) (hsrc : truthy contact.source = true)
    (hrep : g (composed_reply_prompt (promptCoreOf none) (pyStrip summary)
      (contact.email.getD "") cls latest (pyTake 1200 (latest.body.getD ""))) ≠ "")
    (hhr : has_recent_draft st.queue tid ts ["pending_review", "approved", "sent"]
      (contactIdOf contact) = false) :
    (draftStep g st contact tid summary cls latest ts).queue =
      st.queue ++ [mkDraft g contact tid summary cls latest ts (promptCoreOf none)] := by
  simp [draftStep, enqueue_reply_draft, enqueue_draft, hgen, hsum, hem, hsrc, hrep, hhr]

/-- Negative unfolding: when a recent draft already covers
`(contact_id, thread_id)` at the same-or-later timestamp, the step leaves
the queue untouched (whatever the other guards do). -/
theorem draftStep_skips_of_recent (g : String → String) (st : PState) (contact : PContact)
    (tid : Option String) (summary : String) (cls : Classification) (latest : Msg) (ts : String)
    (hhr : has_recent_draft st.queue tid ts ["pending_review", "approved", "sent"]
      (contactIdOf contact) = true) :
    (draftStep g st contact tid summary cls latest ts).queue = st.queue := by
  by_cases hgen : should_generate_draft cls = true
  case neg => simp [draftStep, hgen]
  by_cases hsum : summary = ""
  · simp [draftStep, enqueue_reply_draft, hgen, hsum]
  by_cases hts : (truthy contact.email && truthy contact.source) = true
  case neg => simp [draftStep, enqueue_reply_draft, hgen, hsum, hts]
  by_cases hrep : g (composed_reply_prompt (promptCoreOf none) (pyStrip summary)
      (contact.email.getD "") cls latest (pyTake 1200 (latest.body.getD ""))) = ""
  · simp [draftStep, enqueue_reply_draft, hgen, hsum, hts, hrep]
  · simp [draftStep, enqueue_reply_draft, hgen, hsum, hts, hrep, hhr]

/-- Only-when unfolding: any queue change implies the importance gate was
open (lowered importance outside the low-value set) and no recent draft
existed for the pair. -/
theorem draftStep_change_requires (g : String → String) (st : PState) (contact : PContact)
    (tid : Option String) (summary : String) (cls : Classification) (latest : Msg) (ts : String)
    (hne : (draftStep g st contact tid summary cls latest ts).queue ≠ st.queue) :
    (["low", "spam", "junk", "ignore"].contains (lowerStr cls.importance) = false) ∧
    has_recent_draft st.queue tid ts ["pending_review", "approved", "sent"]
      (contactIdOf contact) = false := by
  by_cases hgen : should_generate_draft cls = true
  case neg => exact absurd (by simp [draftStep, hgen]) hne
  have hcontains : (["low", "spam", "junk", "ignore"].contains (lowerStr cls.importance)) = false := by
    rw [should_generate_draft] at hgen
    by_cases him : (lowerStr cls.importance == "") = true
    · have heq : lowerStr cls.importance = "" := eq_of_beq him
      rw [heq]
      decide
    · rw [if_neg him] at hgen
      simpa using hgen
  refine ⟨hcontains, ?_⟩
  by_cases hsum : summary = ""
  · exact absurd (by simp [draftStep, enqueue_reply_draft, hgen, hsum]) hne
  by_cases hts : (truthy contact.email && truthy contact.source) = true
  case neg => exact absurd (by simp [draftStep, enqueue_reply_draft, hgen, hsum, hts]) hne
  by_cases hrep : g (composed_reply_prompt (promptCoreOf none) (pyStrip summary)
      (contact.email.getD "") cls latest (pyTake 1200 (latest.body.getD ""))) = ""
  · exact absurd (by simp [draftStep, enqueue_reply_draft, hgen, hsum, hts, hrep]) hne
  by_cases hhr : has_recent_draft st.queue tid ts ["pending_review", "approved", "sent"]
      (contactIdOf contact) = true
  · exact absurd (draftStep_skips_of_recent g st contact tid summary cls latest ts hhr) hne
  · simpa using hhr

/-- C8: (a) a new reply draft is enqueued only when the thread's classified
importance (lowercased) is outside the low-value set {low, spam, junk,
ignore} and no draft for the same `(contact_id, thread_id)` in
{pending_review, approved, sent} exists at the same-or-later
`last_message_ts`; (b) under those conditions, running the provider's draft
step twice for an unchanged thread yields exactly one `pending_review`
draft for the pair, and running it again after `last_message_ts` advanced
yields a second one. -/
theorem reply_draft_dedup (g : String → String) (st0 : PState) (contact : PContact)
    (tid : Option String) (summary : String) (cls : Classification) (latest : Msg)
    (ts ts2 : String)
    (hgen : should_generate_draft cls = true)
    (hsum : summary ≠ "")
    (hem : truthy contact.email = true) (hsrc : truthy contact.source = true)
    (hg : ∀ p, g p ≠ "")
    (h0 : draftsFor st0.queue (contactIdOf contact) tid = [])
    (hlt : strLtB ts ts2 = true) :
    (∀ (st : PState) (tid' : Option String) (summary' : String) (cls' : Classification)
        (latest' : Msg) (ts' : String),
      (draftStep g st contact tid' summary' cls' latest' ts').queue ≠ st.queue →
        (["low", "spam", "junk", "ignore"].contains (lowerStr cls'.importance) = false) ∧
        has_recent_draft st.queue tid' ts' ["pending_review", "approved", "sent"]
          (contactIdOf contact) = false) ∧
    (draftsFor (draftStep g st0 contact tid summary cls latest ts).queue
        (contactIdOf contact) tid =
      [mkDraft g contact tid summary cls latest ts (promptCoreOf none)] ∧
     (mkDraft g contact tid summary cls latest ts (promptCoreOf none)).status = "pending_review" ∧
     (draftStep g (draftStep g st0 contact tid summary cls latest ts)
        contact tid summary cls latest ts).queue =
       (draftStep g st0 contact tid summary cls latest ts).queue ∧
     (draftsFor (draftStep g (draftStep g (draftStep g st0 contact tid summary cls latest ts)
          contact tid summary cls latest ts) contact tid summary cls latest ts2).queue
        (contactIdOf contact) tid).length = 2) := by
  have hhr0 : has_recent_draft st0.queue tid ts ["pending_review", "approved", "sent"]
      (contactIdOf contact) = false :=
    no_recent_of_no_drafts _ _ _ _ _ h0
  have hq1 := draftStep_enqueues g st0 contact tid summary cls latest ts hgen hsum hem hsrc (hg _) hhr0
  have hmem1 : mkDraft g contact tid summary cls latest ts (promptCoreOf none) ∈
      (draftStep g st0 contact tid summary cls latest ts).queue := by
    rw [hq1]
    simp
  have hhr1 : has_recent_draft (draftStep g st0 contact tid summary cls latest ts).queue tid ts
      ["pending_review", "approved", "sent"] (contactIdOf contact) = true :=
    recent_of_mem (draftStep g st0 contact tid summary cls latest ts).queue
      (mkDraft g contact tid summary cls latest ts (promptCoreOf none))
      (contactIdOf contact) tid ts ["pending_review", "approved", "sent"]
      hmem1 rfl rfl
      (by show (["pending_review", "approved", "sent"].contains "pending_review") = true; decide)
      (strGeB_refl ts)
  have hq2 := draftStep_skips_of_recent g (draftStep g st0 contact tid summary cls latest ts)
    contact tid summary cls latest ts hhr1
  rw [draftsFor] at h0
  refine ⟨fun st tid' summary' cls' latest' ts' hne =>
    draftStep_change_requires g st contact tid' summary' cls' latest' ts' hne, ?_, rfl, hq2, ?_⟩
  · rw [draftsFor, hq1, List.filter_append, h0]
    simp [mkDraft, contactIdOf]
  · have hhr2 : has_recent_draft (draftStep g (draftStep g st0 contact tid summary cls latest ts)
        contact tid summary cls latest ts).queue tid ts2 ["pending_review", "approved", "sent"]
        (contactIdOf contact) = false := by
      rw [hq2, hq1, has_recent_draft, List.any_eq_false]
      intro x hx
      rw [List.mem_append] at hx
      rcases hx with hx | hx
      · have hnm := List.filter_eq_nil_iff.mp h0 x hx
        by_cases h1 : (x.thread_id == tid) = true
        · by_cases h2 : (x.contact_id == contactIdOf contact) = true
          · exact absurd (by simp [h1, h2]) hnm
          · simp [h1, h2]
        · simp [h1]
      · rw [List.mem_singleton] at hx
        subst hx
        have hge : strGeB (mkDraft g contact tid summary cls latest ts
            (promptCoreOf none)).last_message_ts ts2 = false := by
          show strGeB ts ts2 = false
          simp [strGeB, hlt]
        simp [hge]
    have hq3 := draftStep_enqueues g (draftStep g (draftStep g st0 contact tid summary cls latest ts)
        contact tid summary cls latest ts) contact tid summary cls latest ts2
      hgen hsum hem hsrc (hg _) hhr2
    rw [draftsFor, hq3, hq2, hq1, List.filter_append, List.filter_append, h0]
    simp [mkDraft, contactIdOf]

/-- Witness for C8: with an empty queue, a High-importance thread gets one
`pending_review` draft, a repeat at the same timestamp adds nothing, and a
repeat at a later timestamp adds a second draft. -/
theorem reply_draft_dedup_witness :
    draftsFor w8st1.queue (contactIdOf w8contact) (some "t1") =
      [mkDraft w8g w8contact (some "t1") "Sum" w8cls {} "2024-01-01T00:00:00Z" (promptCoreOf none)] ∧
    (mkDraft w8g w8contact (some "t1") "Sum" w8cls {} "2024-01-01T00:00:00Z"
      (promptCoreOf none)).status = "pending_review" ∧
    w8st2.queue = w8st1.queue ∧
    (draftsFor w8st3.queue (contactIdOf w8contact) (some "t1")).length = 2 :=
  (reply_draft_dedup w8g ⟨{}, []⟩ w8contact (some "t1") "Sum" w8cls {}
    "2024-01-01T00:00:00Z" "2024-01-02T00:00:00Z"
    (by decide) (by decide) (by decide) (by decide) (fun p => by show "R" ≠ ""; decide) rfl (by decide)).2

/-! ## C4 — contact-level role versus per-thread roles in the final record -/

/-- C4: evaluating `McpSummariesProvider._summarize_contact_threads` at the
failing input shows the produced record carrying the single contact-level
role "Admin" while its thread dicts carry the per-thread classification
roles ["Admin", "General External"] — the final overwrite loop replaces the
contact-scoped role the summarizer had stored, so not every thread carries
the record's role. -/
theorem contact_record_thread_roles_diverge :
    c4record.role = "Admin" ∧
    c4record.threads.map (fun t => t.role) = [some "Admin", some "General External"] ∧
    ¬ ∀ t ∈ c4record.threads, t.role = some c4record.role := by
  have hkey : (c4record.role, c4record.threads.map (fun t => t.role)) =
      ("Admin", [some "Admin", some "General External"]) := by rfl
  have h1 : c4record.role = "Admin" := congrArg Prod.fst hkey
  have h2 : c4record.threads.map (fun t => t.role) = [some "Admin", some "General External"] :=
    congrArg Prod.snd hkey
  refine ⟨h1, h2, ?_⟩
  intro hall
  have hmem : some "General External" ∈ c4record.threads.map (fun t => t.role) := by
    rw [h2]
    simp
  rw [List.mem_map] at hmem
  obtain ⟨t, ht, hrole⟩ := hmem
  rw [hall t ht, h1] at hrole
  exact absurd (Option.some.inj hrole) (by decide)

/-! ## C3 — no-thread-loss merge and what "preserved" really keeps -/

/-- C3 counterexample: with previous threads {A, B} and a fetch returning
{B, C}, the merged record does contain exactly {B, C, A} — but when the
per-thread summarizer cache no longer holds A (here: empty cache), the
preserved thread A's summary in the record is the empty string, not its
last known summary "Old A summary": the merge re-reads per-thread summaries
from the summarizer cache rather than from the previous record. -/
theorem merged_record_drops_preserved_summary :
    c3record.threads.map (fun t => (t.id, t.summary)) =
      [(some "B", "S"), (some "C", "S"), (some "A", "")] ∧
    c3oldA.summary = some "Old A summary" ∧
    ("" : String) ≠ "Old A summary" := by
  refine ⟨by rfl, rfl, by decide⟩

set_option maxHeartbeats 4000000 in
/-- C3 amended: with previous threads {A, B}, a fetch returning {B, C}, and
the summarizer cache still holding A's entry, the merged record contains
exactly the threads [B, C, A]; the preserved thread A carries its previous
record's importance, confidences, role, `last_message_ts`,
`last_message_id`, `last_subject` and `last_body` unchanged, while its
subject/preview/summary are re-read from A's summarizer-cache entry (so the
summary equals the last known one exactly when that entry still carries
it). -/
theorem provider_merge_preserves (mc0 : Nat) (now : ℚ) (nowIso : String)
    (oldA oldB : ExThread) (hA : oldA.id = some "A") (hBid : oldB.id = some "B") :
    (match (provider_summarize_contact oracleS tsIdentity ⟨⟨c3cacheA, mc0⟩, []⟩ c3contact
        (some ⟨some [oldA, oldB]⟩) now nowIso).1 with
      | .ok r => some (r.threads.map (fun t => t.id), r.threads.getLast?)
      | .error _ => none) =
    some ([some "B", some "C", some "A"],
      some { id := some "A", subject := c3eA.subject, preview := c3eA.preview,
             summary := c3eA.summary, role := oldA.role, role_confidence := oldA.role_confidence,
             importance := oldA.importance, importance_confidence := oldA.importance_confidence,
             last_message_ts := oldA.last_message_ts, last_message_id := oldA.last_message_id,
             last_subject := oldA.last_subject, last_body := oldA.last_body }) := by
  obtain ⟨idA, sumA, bodA, dispA, impA, impcA, rolA, rolcA, tsA, midA, lsubA, lbodA⟩ := oldA
  obtain ⟨idB, sumB, bodB, dispB, impB, impcB, rolB, rolcB, tsB, midB, lsubB, lbodB⟩ := oldB
  have hA2 : idA = some "A" := hA
  have hB2 : idB = some "B" := hBid
  subst hA2 hB2
  rfl

/-- Witness for C3's amended statement at the fully concrete scenario. -/
theorem provider_merge_preserves_witness :
    (match (provider_summarize_contact oracleS tsIdentity ⟨⟨c3cacheA, 0⟩, []⟩ c3contact
        (some ⟨some [c3oldA, c3oldB]⟩) 0 "NOW").1 with
      | .ok r => some (r.threads.map (fun t => t.id), r.threads.getLast?)
      | .error _ => none) =
    some ([some "B", some "C", some "A"],
      some { id := some "A", subject := c3eA.subject, preview := c3eA.preview,
             summary := c3eA.summary, role := c3oldA.role, role_confidence := c3oldA.role_confidence,
             importance := c3oldA.importance, importance_confidence := c3oldA.importance_confidence,
             last_message_ts := c3oldA.last_message_ts, last_message_id := c3oldA.last_message_id,
             last_subject := c3oldA.last_subject, last_body := c3oldA.last_body }) :=
  provider_merge_preserves 0 0 "NOW" c3oldA c3oldB rfl rfl

end EmailAssistant
